import Mathlib

/-!
Verification development for the Sendo leaderboard X (Twitter) ingestion and
scoring pipeline.  Text is modelled as `List Char`; JavaScript numbers that
carry scores are modelled as `ℚ` (exact arithmetic; every comparison appearing
in the claims has a margin far above double-precision error), and JavaScript
engagement counters as `ℕ`, with `Option ℕ` standing for a value that may be
`undefined` at run time.
-/

abbrev Str := List Char

namespace Leaderboard

/-! ## Generic string machinery (JS `String` operations used by the sources) -/

/-- Boolean prefix test on character lists. -/
def isPre : Str → Str → Bool
  | [], _ => true
  | _ :: _, [] => false
  | p :: ps, t :: ts => p = t && isPre ps ts

/-- JS `text.indexOf(pattern)`: index of the first occurrence, `none` for `-1`. -/
def strIndexOf (text pattern : Str) : Option Nat :=
  if isPre pattern text then some 0
  else
    match text with
    | [] => none
    | _ :: t => (strIndexOf t pattern).map (· + 1)

/-- JS `text.substring(a, b)` for `a ≤ b` within range. -/
def substring (text : Str) (a b : Nat) : Str :=
  (text.take b).drop a

/-- Whitespace as stripped by JS `String.prototype.trim` (the characters that
actually occur in the repository's texts). -/
def isJsWs (c : Char) : Bool :=
  c = ' ' || c = '\t' || c = '\n' || c = '\r'

/-- Drop leading JSON/JS whitespace. -/
def skipWs : Str → Str
  | [] => []
  | c :: t => if isJsWs c then skipWs t else c :: t

/-- JS `text.trim()`. -/
def jsTrim (s : Str) : Str :=
  ((s.dropWhile isJsWs).reverse.dropWhile isJsWs).reverse

/-- JS `text.endsWith("\n")`. -/
def endsWithNewline (s : Str) : Bool :=
  s.getLast? = some '\n'

/-- JS `String.prototype.toLowerCase` on the ASCII texts this code handles. -/
def jsToLower (s : Str) : Str := s.map Char.toLower

/-! ## JS number helpers -/

/-- JS `x || 0` on a possibly-`undefined` counter (`0 || 0 = 0`, so collapsing
the falsy-number case is exact for `ℕ`). -/
def orZero (x : Option Nat) : Nat := x.getD 0

/-- JS `Math.round`: round half toward positive infinity. -/
def jsRound (q : ℚ) : ℤ := ⌊q + 1 / 2⌋

/-! ## Scoring configuration (`XScoringConfig`, scoringCalculator module) -/

structure PostScoringConfig where
  base : ℚ
  mentionsSendoMarket : ℚ
  usesHashtag : ℚ
  hasMedia : ℚ
  deriving Repr, DecidableEq

structure TypeScoringConfig where
  base : ℚ
  deriving Repr, DecidableEq

structure DailyScoringConfig where
  maxPosts : Nat
  diminishingReturnsThreshold : ℤ
  diminishingReturnsPenalty : ℚ
  maxPointsPerDay : ℚ
  deriving Repr, DecidableEq

structure XScoringConfig where
  post : PostScoringConfig
  quote : TypeScoringConfig
  reply : TypeScoringConfig
  repost : TypeScoringConfig
  daily : DailyScoringConfig
  deriving Repr, DecidableEq

/-- `DEFAULT_X_SCORING` from the source. -/
def DEFAULT_X_SCORING : XScoringConfig :=
  { post := { base := 5, mentionsSendoMarket := 3 / 2, usesHashtag := 11 / 10, hasMedia := 6 / 5 }
    quote := { base := 4 }
    reply := { base := 2 }
    repost := { base := 1 }
    daily := { maxPosts := 15, diminishingReturnsThreshold := 3,
               diminishingReturnsPenalty := 7 / 10, maxPointsPerDay := 25 } }

/-! ## Stored activity rows (`xActivities` schema as used by the sources)

`hashtagsUsed` is persisted as `JSON.stringify` of a list of strings and read
back with `JSON.parse`; the round-tripped list itself is stored in the model.
`likesCount`, `repostsCount` and `engagementCount` are `Option ℕ` because the
normalizer can hand `storeXActivity` an `undefined` counter (see
`normalizeXPostFlat`). -/

structure XActivityRow where
  id : Str
  username : Str
  activityType : Str
  content : Str
  targetPostId : Option Str
  targetUserId : Option Str
  isAboutSendo : Bool
  mentionsSendoMarket : Bool
  hashtagsUsed : List Str
  mediaCount : Nat
  engagementCount : Option Nat
  likesCount : Option Nat
  repostsCount : Option Nat
  repliesCount : Nat
  viewsCount : Option Nat
  createdAt : Str
  lastUpdated : Str
  deriving Repr, DecidableEq

/-! ## Scoring engine (`calculateActivityScore`, `calculateXScore`) -/

/-- `calculateActivityScore(activity, config, positionInDay)`.  The penalty
exponent `positionInDay - threshold` is a positive integer whenever the branch
is taken, so `Math.pow` is natural-number exponentiation. -/
def calculateActivityScore (activity : XActivityRow) (config : XScoringConfig)
    (positionInDay : Nat) : ℚ :=
  let base : Option ℚ :=
    if activity.activityType = "post".data then some config.post.base
    else if activity.activityType = "quote".data then some config.quote.base
    else if activity.activityType = "reply".data then some config.reply.base
    else if activity.activityType = "repost".data then some config.repost.base
    else none
  match base with
  | none => 0
  | some b =>
    let b :=
      if activity.activityType = "post".data then
        let m : ℚ := 1
        let m := if activity.mentionsSendoMarket then m * config.post.mentionsSendoMarket else m
        let m := if "sendo".data ∈ activity.hashtagsUsed then m * config.post.usesHashtag else m
        let m := if activity.mediaCount > 0 then m * config.post.hasMedia else m
        b * m
      else b
    if (positionInDay : ℤ) > config.daily.diminishingReturnsThreshold then
      b * config.daily.diminishingReturnsPenalty ^
        ((positionInDay : ℤ) - config.daily.diminishingReturnsThreshold).toNat
    else b

/-- Modelled from the spec: `groupBy` (from `lib/arrayHelpers`, not under
`src/`) groups a list into an association list keyed by `key`, keys in order
of first appearance, each group keeping the original item order — the
behaviour of building a plain JS object and iterating `Object.entries` (date
keys are not array indices, so insertion order is preserved). -/
def insertGrouped (k : Str) (a : α) : List (Str × List α) → List (Str × List α)
  | [] => [(k, [a])]
  | (k', items) :: rest =>
    if k = k' then (k', items ++ [a]) :: rest else (k', items) :: insertGrouped k a rest

def groupByKey (key : α → Str) (l : List α) : List (Str × List α) :=
  l.foldl (fun acc a => insertGrouped (key a) a acc) []

/-- Modelled from the spec: `toDateString(new UTCDate(createdAt))` (from
`lib/date-utils`, not under `src/`) yields the UTC calendar date of an
ISO-8601 UTC timestamp, which for the canonical `toISOString` texts stored by
this pipeline is its first ten characters (`YYYY-MM-DD`). -/
def toDateString (iso : Str) : Str := iso.take 10

/-- Ascending stable insertion used to model the ES2019-stable
`Array.prototype.sort` comparator `new Date(a.createdAt) - new Date(b.createdAt)`;
for the canonical ISO-8601 UTC strings the pipeline stores, chronological
order coincides with lexicographic order on the text. -/
def strLe (a b : Str) : Bool :=
  match a, b with
  | [], _ => true
  | _ :: _, [] => false
  | x :: xs, y :: ys => if x = y then strLe xs ys else decide (x < y)

def insertByCreatedAt (a : XActivityRow) : List XActivityRow → List XActivityRow
  | [] => [a]
  | b :: rest =>
    if strLe b.createdAt a.createdAt then b :: insertByCreatedAt a rest
    else a :: b :: rest

def sortByCreatedAt (l : List XActivityRow) : List XActivityRow :=
  l.foldl (fun acc a => insertByCreatedAt a acc) []

/-- The per-day activity list after sorting and the `maxPosts` cut. -/
def cappedDay (config : XScoringConfig) (items : List XActivityRow) : List XActivityRow :=
  (sortByCreatedAt items).take config.daily.maxPosts

/-- Metrics record of `XScoreResult`. -/
structure XScoreMetrics where
  postsTotal : Nat
  postsOriginal : Nat
  postsQuotes : Nat
  postsReplies : Nat
  postsReposts : Nat
  totalMentions : Nat
  withHashtag : Nat
  withMedia : Nat
  deriving Repr, DecidableEq

structure XScoreResult where
  totalScore : ℚ
  socialScore : ℚ
  metrics : XScoreMetrics
  deriving Repr, DecidableEq

/-- The metric updates performed inside the per-day `forEach`. -/
def updateMetrics (m : XScoreMetrics) (a : XActivityRow) : XScoreMetrics :=
  { m with
    postsOriginal := if a.activityType = "post".data then m.postsOriginal + 1 else m.postsOriginal
    postsQuotes := if a.activityType = "quote".data then m.postsQuotes + 1 else m.postsQuotes
    postsReplies := if a.activityType = "reply".data then m.postsReplies + 1 else m.postsReplies
    postsReposts := if a.activityType = "repost".data then m.postsReposts + 1 else m.postsReposts
    totalMentions := if a.mentionsSendoMarket then m.totalMentions + 1 else m.totalMentions
    withHashtag := if "sendo".data ∈ a.hashtagsUsed then m.withHashtag + 1 else m.withHashtag
    withMedia := if a.mediaCount > 0 then m.withMedia + 1 else m.withMedia }

/-- Raw (pre-clamp) score of one day's capped activity list, positions 1-based. -/
def dayScore (config : XScoringConfig) (capped : List XActivityRow) : ℚ :=
  (capped.enum.foldl (fun acc (p : Nat × XActivityRow) =>
    acc + calculateActivityScore p.2 config (p.1 + 1)) 0)

/-- `calculateXScore(activities, config)`. -/
def calculateXScore (activities : List XActivityRow)
    (config : XScoringConfig := DEFAULT_X_SCORING) : XScoreResult :=
  let groups := groupByKey (fun a => toDateString a.createdAt) activities
  let total : ℚ := groups.foldl
    (fun acc g => acc + min (dayScore config (cappedDay config g.2)) config.daily.maxPointsPerDay) 0
  let metrics0 : XScoreMetrics :=
    { postsTotal := activities.length, postsOriginal := 0, postsQuotes := 0,
      postsReplies := 0, postsReposts := 0,
      totalMentions := 0, withHashtag := 0, withMedia := 0 }
  let metrics := groups.foldl
    (fun m g => (cappedDay config g.2).foldl updateMetrics m) metrics0
  { totalScore := (jsRound (total * 100) : ℚ) / 100
    socialScore := (jsRound (total * 100) : ℚ) / 100
    metrics := metrics }

/-! ## X API client (`lib/x-api/client`): raw post shapes and normalization

Two historical upstream shapes exist.  Fields that the JavaScript can observe
as `undefined` at run time (either declared optional in the TypeScript type or
defensively defaulted by the code) are `Option`; `retweeted_tweet` /
`quoted_tweet` and the legacy `*_id_str` fields are only ever tested for
truthiness, so just their presence is modelled. -/

structure XHashtagEntity where
  text : Str
  deriving Repr, DecidableEq

structure XMentionEntity where
  screen_name : Str
  id_str : Str
  deriving Repr, DecidableEq

structure XMediaEntity where
  mediaType : Str
  media_url_https : Str
  deriving Repr, DecidableEq

structure XPostEntities where
  hashtags : Option (List XHashtagEntity)
  user_mentions : Option (List XMentionEntity)
  media : Option (List XMediaEntity)
  deriving Repr, DecidableEq

structure XAuthorFlat where
  id : Str
  userName : Str
  name : Str
  deriving Repr, DecidableEq

/-- The current ("flat") `XPost` shape of twitterapi.io. -/
structure XPostFlat where
  id : Str
  text : Str
  createdAt : Str
  likeCount : Option Nat
  retweetCount : Option Nat
  replyCount : Option Nat
  quoteCount : Option Nat
  bookmarkCount : Option Nat
  viewCount : Option Nat
  isReply : Bool
  entities : XPostEntities
  retweeted_tweet : Bool
  quoted_tweet : Bool
  author : XAuthorFlat
  deriving Repr, DecidableEq

structure XUserResultLegacy where
  screen_name : Str
  name : Str
  deriving Repr, DecidableEq

structure XUserResult where
  rest_id : Option Str
  legacy : Option XUserResultLegacy
  deriving Repr, DecidableEq

structure XUserResults where
  result : Option XUserResult
  deriving Repr, DecidableEq

structure XCore where
  user_results : Option XUserResults
  deriving Repr, DecidableEq

structure XViews where
  count : Option Str
  deriving Repr, DecidableEq

structure XPostLegacyInner where
  full_text : Str
  created_at : Str
  favorite_count : Option Nat
  retweet_count : Option Nat
  reply_count : Option Nat
  quote_count : Option Nat
  bookmark_count : Option Nat
  entities : XPostEntities
  retweeted_status_id_str : Option Str
  quoted_status_id_str : Option Str
  in_reply_to_status_id_str : Option Str
  in_reply_to_user_id_str : Option Str
  deriving Repr, DecidableEq

/-- The older ("legacy") nested `XPost` shape. -/
structure XPostLegacy where
  rest_id : Str
  legacy : XPostLegacyInner
  core : Option XCore
  views : Option XViews
  deriving Repr, DecidableEq

/-- `parseTwitterDate`: "Wed Oct 10 20:19:24 +0000 2018" →
"2018-10-10T20:19:24.000Z".  Upstream dates are always UTC (`+0000`), so
`new Date(s).toISOString()` is pure text rearrangement plus a month table; an
input outside that format (on which the JS would throw) is mapped to `[]`, a
path no claim exercises. -/
def monthNumber (m : Str) : Option Str :=
  if m = "Jan".data then some "01".data else if m = "Feb".data then some "02".data
  else if m = "Mar".data then some "03".data else if m = "Apr".data then some "04".data
  else if m = "May".data then some "05".data else if m = "Jun".data then some "06".data
  else if m = "Jul".data then some "07".data else if m = "Aug".data then some "08".data
  else if m = "Sep".data then some "09".data else if m = "Oct".data then some "10".data
  else if m = "Nov".data then some "11".data else if m = "Dec".data then some "12".data
  else none

def parseTwitterDate (s : Str) : Str :=
  match s.splitOn ' ' with
  | [_wd, mon, dd, time, tz, yyyy] =>
    if tz = "+0000".data then
      match monthNumber mon with
      | some mm => yyyy ++ '-' :: mm ++ '-' :: dd ++ 'T' :: time ++ ".000Z".data
      | none => []
    else []
  | _ => []

/-- `NormalizedXPost`.  `likesCount` and `repostsCount` are read from the raw
post without a default, so they are `undefined` (`none`) whenever the raw
counter is absent; every other counter is defaulted by the normalizers. -/
structure NormalizedXPost where
  id : Str
  text : Str
  authorId : Str
  authorUsername : Str
  authorName : Str
  createdAt : Str
  likesCount : Option Nat
  repostsCount : Option Nat
  repliesCount : Nat
  quotesCount : Nat
  viewsCount : Option Nat
  bookmarksCount : Nat
  isRetweet : Bool
  isQuote : Bool
  isReply : Bool
  hashtags : List Str
  mentions : List (Str × Str)
  mediaCount : Nat
  deriving Repr, DecidableEq

/-- `normalizeXPost` of the current client (flat shape). -/
def normalizeXPostFlat (post : XPostFlat) : NormalizedXPost :=
  { id := post.id
    text := post.text
    authorId := post.author.id
    authorUsername := post.author.userName
    authorName := post.author.name
    createdAt := parseTwitterDate post.createdAt
    likesCount := post.likeCount
    repostsCount := post.retweetCount
    repliesCount := orZero post.replyCount
    quotesCount := orZero post.quoteCount
    viewsCount := some (orZero post.viewCount)
    bookmarksCount := orZero post.bookmarkCount
    isRetweet := post.retweeted_tweet
    isQuote := post.quoted_tweet
    isReply := post.isReply
    hashtags := ((post.entities.hashtags.map
      (fun hs => hs.map (fun h => jsToLower h.text))).getD [])
    mentions := ((post.entities.user_mentions.map
      (fun ms => ms.map (fun m => (jsToLower m.screen_name, m.id_str)))).getD [])
    mediaCount := (post.entities.media.map List.length).getD 0 }

/-- JS `parseInt(s, 10)` restricted to the decimal digit strings the view
counter carries; `none` models `NaN` for a string without leading digits. -/
def jsParseIntNat (s : Str) : Option Nat :=
  let digits := s.takeWhile Char.isDigit
  if digits = [] then none
  else some (digits.foldl (fun acc c => acc * 10 + (c.toNat - 48)) 0)

/-- `normalizeXPost` of the legacy client (nested shape). -/
def normalizeXPostLegacy (post : XPostLegacy) : NormalizedXPost :=
  let userResult := post.core.bind (fun c => c.user_results.bind (fun u => u.result))
  let authorId := (userResult.bind (fun r => r.rest_id)).getD "unknown_author".data
  let authorUsername := (userResult.bind (fun r => r.legacy.map
    (fun l => l.screen_name))).getD "unknown_username".data
  let authorName := (userResult.bind (fun r => r.legacy.map
    (fun l => l.name))).getD authorUsername
  { id := post.rest_id
    text := post.legacy.full_text
    authorId := authorId
    authorUsername := authorUsername
    authorName := authorName
    createdAt := parseTwitterDate post.legacy.created_at
    likesCount := post.legacy.favorite_count
    repostsCount := post.legacy.retweet_count
    repliesCount := orZero post.legacy.reply_count
    quotesCount := orZero post.legacy.quote_count
    viewsCount :=
      match post.views.bind (fun v => v.count) with
      | some s => if s = [] then some 0 else jsParseIntNat s
      | none => some 0
    bookmarksCount := orZero post.legacy.bookmark_count
    isRetweet := post.legacy.retweeted_status_id_str.isSome
    isQuote := post.legacy.quoted_status_id_str.isSome
    isReply := post.legacy.in_reply_to_status_id_str.isSome
      || post.legacy.in_reply_to_user_id_str.isSome
    hashtags := ((post.legacy.entities.hashtags.map
      (fun hs => hs.map (fun h => jsToLower h.text))).getD [])
    mentions := ((post.legacy.entities.user_mentions.map
      (fun ms => ms.map (fun m => (jsToLower m.screen_name, m.id_str)))).getD [])
    mediaCount := (post.legacy.entities.media.map List.length).getD 0 }

/-! ## Search pagination (`XApiClient.searchTweets` and the SEARCHING loop of
`fetchAndStoreXActivitiesStep`) -/

/-- The data object `searchTweets` resolves with:
`{ tweets, next_cursor, has_next_page }`. -/
structure SearchPageData where
  tweets : List XPostFlat
  next_cursor : Option Str
  has_next_page : Option Bool
  deriving Repr

/-- `XApiClient.searchTweets`: issues the request with `params.cursor || ""`
and repackages the upstream body.  The upstream is a pure page function from
the cursor string actually sent. -/
def searchTweets (upstream : Str → SearchPageData) (cursor : Option Str) : SearchPageData :=
  let sent := match cursor with
    | some s => if s = [] then ([] : Str) else s
    | none => []
  let r := upstream sent
  { tweets := r.tweets, next_cursor := r.next_cursor, has_next_page := r.has_next_page }

/-- The orchestrator's `cursor = response.data.cursor`: the search response
carries `next_cursor`, not `cursor`, so this property access yields
`undefined` on every page. -/
def dataCursor (_ : SearchPageData) : Option Str := none

/-- JS truthiness of the `cursor` loop variable (`undefined` and `""` are
falsy). -/
def jsTruthyStr : Option Str → Bool
  | none => false
  | some s => s ≠ []

/-- The do/while SEARCHING loop of `fetchAndStoreXActivitiesStep`.  The `fuel`
argument only bounds the recursion; the `pageCount < 5` guard exits after at
most five iterations, so `fuel = 6` at the top level is never exhausted. -/
def fetchPagesGo (upstream : Str → SearchPageData) :
    Nat → Option Str → List NormalizedXPost → Nat → List NormalizedXPost × Nat
  | 0, _, allPosts, pageCount => (allPosts, pageCount)
  | fuel + 1, cursor, allPosts, pageCount =>
    let response := searchTweets upstream cursor
    if response.tweets.isEmpty then (allPosts, pageCount)
    else
      let allPosts := allPosts ++ response.tweets.map normalizeXPostFlat
      let cursor := dataCursor response
      let pageCount := pageCount + 1
      if jsTruthyStr cursor && pageCount < 5 then
        fetchPagesGo upstream fuel cursor allPosts pageCount
      else (allPosts, pageCount)

/-- The SEARCHING stage: accumulated normalized posts and the page count. -/
def fetchPages (upstream : Str → SearchPageData) : List NormalizedXPost × Nat :=
  fetchPagesGo upstream 6 none [] 0

/-! ## Storing activities (`storeXActivities` module) -/

/-- `determineActivityType`. -/
def determineActivityType (post : NormalizedXPost) : Str :=
  if post.isReply then "reply".data
  else if post.isRetweet then "repost".data
  else if post.isQuote then "quote".data
  else "post".data

/-- `mentionsSendoMarket`. -/
def mentionsSendoMarketP (post : NormalizedXPost) : Bool :=
  post.mentions.any (fun m => jsToLower m.1 = "sendomarket".data)

/-- `isAboutSendo`. -/
def isAboutSendoP (post : NormalizedXPost) : Bool :=
  mentionsSendoMarketP post || post.hashtags.any (fun h => h = "sendo".data)

/-- The `engagementCount` expression of `storeXActivity`:
`likes + reposts + replies + quotes`, `none` (JS `NaN`) when an operand is
`undefined`.  `viewsCount` and `bookmarksCount` never enter the sum. -/
def engagementSum (post : NormalizedXPost) : Option Nat :=
  match post.likesCount, post.repostsCount with
  | some l, some r => some (l + r + post.repliesCount + post.quotesCount)
  | _, _ => none

/-- `storeXActivity(post, githubUsername)` as a pure upsert on the row keyed
by `post.id`: `existing` is the stored row under that id, if any; `now` is the
`new Date().toISOString()` timestamp.  On conflict only the engagement
counters and `lastUpdated` are written (`onConflictDoUpdate` set clause). -/
def storeXActivity (post : NormalizedXPost) (githubUsername : Str) (now : Str) :
    Option XActivityRow → XActivityRow
  | none =>
    { id := post.id
      username := githubUsername
      activityType := determineActivityType post
      content := post.text
      targetPostId := none
      targetUserId := none
      isAboutSendo := isAboutSendoP post
      mentionsSendoMarket := mentionsSendoMarketP post
      hashtagsUsed := post.hashtags
      mediaCount := post.mediaCount
      engagementCount := engagementSum post
      likesCount := post.likesCount
      repostsCount := post.repostsCount
      repliesCount := post.repliesCount
      viewsCount := post.viewsCount
      createdAt := post.createdAt
      lastUpdated := now }
  | some row =>
    { row with
      engagementCount := engagementSum post
      likesCount := post.likesCount
      repostsCount := post.repostsCount
      repliesCount := post.repliesCount
      viewsCount := post.viewsCount
      lastUpdated := now }

/-! ## X-linking README codec (`src/lib/xLinking/readmeUtils.ts`)

The JSON embedded between the sentinels is modelled with a real serializer
(`JSON.stringify(data, null, 2)` on the fixed two-level schema, with JSON
string escaping) and a real recursive-descent `JSON.parse`. -/

def X_SECTION_BEGIN_MARKER : Str := "<!-- X-LINKING-BEGIN".data

def X_SECTION_END_MARKER : Str := "X-LINKING-END -->".data

/-- Lowercase hex digit, as emitted by `JSON.stringify` for control chars. -/
def hexDigit (n : Nat) : Char :=
  if n < 10 then Char.ofNat (48 + n) else Char.ofNat (87 + n)

/-- JSON string escaping of one character (`JSON.stringify`).  Lone
surrogates cannot occur in a Lean `Char`, so the `\udXXX` case is absent. -/
def escChar (c : Char) : Str :=
  if c = '"' then ['\\', '"']
  else if c = '\\' then ['\\', '\\']
  else if c = '\x08' then ['\\', 'b']
  else if c = '\x0c' then ['\\', 'f']
  else if c = '\n' then ['\\', 'n']
  else if c = '\r' then ['\\', 'r']
  else if c = '\t' then ['\\', 't']
  else if c.toNat < 32 then ['\\', 'u', '0', '0', hexDigit (c.toNat / 16), hexDigit (c.toNat % 16)]
  else [c]

def escapeJson (s : Str) : Str := s.flatMap escChar

/-- Parsed JSON values.  Number values never reach the schema check, so a
numeric literal keeps its lexeme. -/
inductive Json where
  | str (s : Str)
  | num (lexeme : Str)
  | jsonBool (b : Bool)
  | jsonNull
  | arr (elems : List Json)
  | obj (members : List (Str × Json))
  deriving Repr

def hexVal (c : Char) : Option Nat :=
  if '0' ≤ c ∧ c ≤ '9' then some (c.toNat - 48)
  else if 'a' ≤ c ∧ c ≤ 'f' then some (c.toNat - 87)
  else if 'A' ≤ c ∧ c ≤ 'F' then some (c.toNat - 55)
  else none

def unescChar (c : Char) : Option Char :=
  if c = '"' then some '"'
  else if c = '\\' then some '\\'
  else if c = '/' then some '/'
  else if c = 'b' then some '\x08'
  else if c = 'f' then some '\x0c'
  else if c = 'n' then some '\n'
  else if c = 'r' then some '\r'
  else if c = 't' then some '\t'
  else none

/-- JSON string body (after the opening quote): unescaped content and rest. -/
def parseStringBody : Str → Option (Str × Str)
  | [] => none
  | c :: rest =>
    if c = '"' then some ([], rest)
    else if c = '\\' then
      match rest with
      | 'u' :: h1 :: h2 :: h3 :: h4 :: rest' =>
        match hexVal h1, hexVal h2, hexVal h3, hexVal h4 with
        | some a, some b, some c2, some d =>
          (parseStringBody rest').map
            (fun p => (Char.ofNat (((a * 16 + b) * 16 + c2) * 16 + d) :: p.1, p.2))
        | _, _, _, _ => none
      | e :: rest' =>
        match unescChar e with
        | some u => (parseStringBody rest').map (fun p => (u :: p.1, p.2))
        | none => none
      | [] => none
    else if c.toNat < 32 then none
    else (parseStringBody rest).map (fun p => (c :: p.1, p.2))

/-- Fractional part of a JSON number (empty when absent). -/
def parseFrac : Str → Option (Str × Str)
  | '.' :: t =>
    let d := t.takeWhile Char.isDigit
    if d = [] then none else some ('.' :: d, t.drop d.length)
  | s => some ([], s)

/-- Exponent part of a JSON number (empty when absent). -/
def parseExp : Str → Option (Str × Str)
  | [] => some ([], [])
  | c :: t =>
    if c = 'e' ∨ c = 'E' then
      let (sgn, t1) : Str × Str := match t with
        | s :: t' => if s = '+' ∨ s = '-' then ([s], t') else ([], t)
        | [] => ([], t)
      let d := t1.takeWhile Char.isDigit
      if d = [] then none else some (c :: sgn ++ d, t1.drop d.length)
    else some ([], c :: t)

/-- JSON number lexeme and rest. -/
def parseNumber (s : Str) : Option (Str × Str) :=
  let (neg, s1) : Str × Str := match s with | '-' :: t => (['-'], t) | _ => ([], s)
  let intPart := s1.takeWhile Char.isDigit
  if intPart = [] then none
  else if intPart.length > 1 ∧ intPart.head? = some '0' then none
  else
    match parseFrac (s1.drop intPart.length) with
    | none => none
    | some (fr, s2) =>
      match parseExp s2 with
      | none => none
      | some (ex, s3) => some (neg ++ intPart ++ fr ++ ex, s3)

/-- Object-member list parser, parametrized by the value parser of the
enclosing nesting level; its own `Nat` argument only bounds the member count
(each member consumes input, so `rest.length + 1` can never run out). -/
def parseMembersWith (pv : Str → Option (Json × Str)) :
    Nat → Str → Option (List (Str × Json) × Str)
  | 0, _ => none
  | fuel + 1, s =>
    match skipWs s with
    | '"' :: rest =>
      match parseStringBody rest with
      | none => none
      | some (k, r1) =>
        match skipWs r1 with
        | ':' :: r2 =>
          match pv r2 with
          | none => none
          | some (v, r3) =>
            match skipWs r3 with
            | ',' :: r4 => (parseMembersWith pv fuel r4).map (fun p => ((k, v) :: p.1, p.2))
            | '\x7d' :: r4 => some ([(k, v)], r4)
            | _ => none
        | _ => none
    | _ => none

/-- Array-element list parser (same parametrization). -/
def parseElementsWith (pv : Str → Option (Json × Str)) :
    Nat → Str → Option (List Json × Str)
  | 0, _ => none
  | fuel + 1, s =>
    match pv s with
    | none => none
    | some (v, r1) =>
      match skipWs r1 with
      | ',' :: r2 => (parseElementsWith pv fuel r2).map (fun p => (v :: p.1, p.2))
      | ']' :: r2 => some ([v], r2)
      | _ => none

/-- JSON value parser.  `fuel` bounds the nesting depth; the top level passes
the input length plus one, which no well-formed input can exhaust. -/
def parseValue : Nat → Str → Option (Json × Str)
  | 0, _ => none
  | fuel + 1, s =>
    match skipWs s with
    | [] => none
    | c :: rest =>
      if c = '"' then (parseStringBody rest).map (fun p => (.str p.1, p.2))
      else if c = '\x7b' then
        match skipWs rest with
        | '\x7d' :: r => some (.obj [], r)
        | _ => (parseMembersWith (parseValue fuel) (rest.length + 1) rest).map
            (fun p => (.obj p.1, p.2))
      else if c = '[' then
        match skipWs rest with
        | ']' :: r => some (.arr [], r)
        | _ => (parseElementsWith (parseValue fuel) (rest.length + 1) rest).map
            (fun p => (.arr p.1, p.2))
      else if c = 't' then
        if isPre "rue".data rest then some (.jsonBool true, rest.drop 3) else none
      else if c = 'f' then
        if isPre "alse".data rest then some (.jsonBool false, rest.drop 4) else none
      else if c = 'n' then
        if isPre "ull".data rest then some (.jsonNull, rest.drop 3) else none
      else (parseNumber (c :: rest)).map (fun p => (.num p.1, p.2))

/-- `JSON.parse`: a value followed only by whitespace. -/
def jsonParse (s : Str) : Option Json :=
  match parseValue (s.length + 1) s with
  | some (v, rest) => if skipWs rest = [] then some v else none
  | none => none

/-! ### Schemas (`LinkedXAccountSchema`, `XLinkingDataSchema`) -/

structure LinkedXAccount where
  xUsername : Str
  xUserId : Str
  linkedAt : Str
  linkingProof : Str
  deriving Repr, DecidableEq

structure XLinkingData where
  lastUpdated : Str
  xAccount : LinkedXAccount
  deriving Repr, DecidableEq

/-- `z.string().datetime()` (zod v3 default: no offset, optional fractional
seconds, mandatory `Z`). -/
def chompDigits : Nat → Str → Option Str
  | 0, s => some s
  | n + 1, c :: t => if c.isDigit then chompDigits n t else none
  | _ + 1, [] => none

def chompChar (c : Char) : Str → Option Str
  | x :: t => if x = c then some t else none
  | [] => none

def zodDatetime (s : Str) : Bool :=
  (do
    let s ← chompDigits 4 s
    let s ← chompChar '-' s
    let s ← chompDigits 2 s
    let s ← chompChar '-' s
    let s ← chompDigits 2 s
    let s ← chompChar 'T' s
    let s ← chompDigits 2 s
    let s ← chompChar ':' s
    let s ← chompDigits 2 s
    let s ← chompChar ':' s
    let s ← chompDigits 2 s
    let s ← (match s with
      | '.' :: t =>
        let d := t.takeWhile Char.isDigit
        if d = [] then none else some (t.drop d.length)
      | _ => some s)
    let s ← chompChar 'Z' s
    if s = [] then some () else none).isSome

/-- `LinkedXAccountSchema` check (`min(1)` strings, `datetime()` linkedAt). -/
def validLinkedXAccount (a : LinkedXAccount) : Bool :=
  a.xUsername ≠ [] && a.xUserId ≠ [] && zodDatetime a.linkedAt && a.linkingProof ≠ []

/-- `XLinkingDataSchema` check. -/
def validXLinkingData (d : XLinkingData) : Bool :=
  zodDatetime d.lastUpdated && validLinkedXAccount d.xAccount

/-- Property lookup after `JSON.parse` (a later duplicate key overwrites an
earlier one during parsing, so the last binding wins). -/
def jLookup (key : Str) : List (Str × Json) → Option Json
  | [] => none
  | (k, v) :: rest =>
    match jLookup key rest with
    | some r => some r
    | none => if k = key then some v else none

def asStr : Json → Option Str
  | .str s => some s
  | _ => none

/-- `LinkedXAccountSchema.safeParse` on a parsed JSON value. -/
def linkedXAccountSafeParse (j : Json) : Option LinkedXAccount :=
  match j with
  | .obj ms => do
    let u ← (jLookup "xUsername".data ms).bind asStr
    let i ← (jLookup "xUserId".data ms).bind asStr
    let la ← (jLookup "linkedAt".data ms).bind asStr
    let pr ← (jLookup "linkingProof".data ms).bind asStr
    let acc : LinkedXAccount := ⟨u, i, la, pr⟩
    if validLinkedXAccount acc then some acc else none
  | _ => none

/-- `XLinkingDataSchema.safeParse` on a parsed JSON value. -/
def xLinkingDataSafeParse (j : Json) : Option XLinkingData :=
  match j with
  | .obj ms => do
    let lu ← (jLookup "lastUpdated".data ms).bind asStr
    let xa ← jLookup "xAccount".data ms
    let acc ← linkedXAccountSafeParse xa
    if zodDatetime lu then some (⟨lu, acc⟩ : XLinkingData) else none
  | _ => none

/-! ### Serialization (`JSON.stringify(validatedData, null, 2)`) -/

def jsonChunk1 : Str := "\x7b\n  \"lastUpdated\": \"".data
def jsonChunk2 : Str := "\",\n  \"xAccount\": \x7b\n    \"xUsername\": \"".data
def jsonChunk3 : Str := "\",\n    \"xUserId\": \"".data
def jsonChunk4 : Str := "\",\n    \"linkedAt\": \"".data
def jsonChunk5 : Str := "\",\n    \"linkingProof\": \"".data
def jsonChunk6 : Str := "\"\n  \x7d\n\x7d".data

/-- The exact pretty-printed JSON text of an `XLinkingData` (schema key
order, two-space indent). -/
def stringifyXData (d : XLinkingData) : Str :=
  jsonChunk1 ++ escapeJson d.lastUpdated ++
  jsonChunk2 ++ escapeJson d.xAccount.xUsername ++
  jsonChunk3 ++ escapeJson d.xAccount.xUserId ++
  jsonChunk4 ++ escapeJson d.xAccount.linkedAt ++
  jsonChunk5 ++ escapeJson d.xAccount.linkingProof ++
  jsonChunk6

/-- The rendered section: begin sentinel, JSON, end sentinel. -/
def xSectionText (d : XLinkingData) : Str :=
  X_SECTION_BEGIN_MARKER ++ '\n' :: (stringifyXData d ++ '\n' :: X_SECTION_END_MARKER)

/-! ### `parseXLinkingDataFromReadme` and `generateUpdatedReadmeWithXInfo` -/

def parseXLinkingDataFromReadme (readmeContent : Str) : Option XLinkingData :=
  match strIndexOf readmeContent X_SECTION_BEGIN_MARKER,
        strIndexOf readmeContent X_SECTION_END_MARKER with
  | some startIndex, some endIndex =>
    if endIndex ≤ startIndex then none
    else
      let xSectionContent := jsTrim
        (substring readmeContent (startIndex + X_SECTION_BEGIN_MARKER.length) endIndex)
      match jsonParse xSectionContent with
      | some rawData => xLinkingDataSafeParse rawData
      | none => none
  | _, _ => none

/-- The append branch of `generateUpdatedReadmeWithXInfo`:
`currentReadme.trim() + separator + xSection`. -/
def appendXSection (currentReadme xSection : Str) : Str :=
  let t := jsTrim currentReadme
  let separator : Str :=
    if t ≠ [] ∧ ¬ endsWithNewline currentReadme then "\n\n".data
    else if t ≠ [] then "\n".data
    else []
  t ++ separator ++ xSection

/-- `generateUpdatedReadmeWithXInfo(currentReadme, xAccount)`; `now` is the
`new Date().toISOString()` value used for `lastUpdated`; `none` models the
`ZodError` thrown when validation fails. -/
def generateUpdatedReadmeWithXInfo (currentReadme : Str) (xAccount : LinkedXAccount)
    (now : Str) : Option (Str × XLinkingData) :=
  if ¬ validLinkedXAccount xAccount then none
  else
    let xData : XLinkingData := ⟨now, xAccount⟩
    if ¬ validXLinkingData xData then none
    else
      let xSection := xSectionText xData
      match strIndexOf currentReadme X_SECTION_BEGIN_MARKER,
            strIndexOf currentReadme X_SECTION_END_MARKER with
      | some startIndex, some endIndex =>
        if endIndex > startIndex then
          some (substring currentReadme 0 startIndex ++ xSection ++
                currentReadme.drop (endIndex + X_SECTION_END_MARKER.length), xData)
        else some (appendXSection currentReadme xSection, xData)
      | _, _ => some (appendXSection currentReadme xSection, xData)

/-! ## Profile scanner (`lib/x-api/profileScanner`) -/

/-- Outcome of the single GitHub README fetch attempt for one username
(after `pRetry` has run its course). -/
inductive FetchOutcome where
  | fetchThrows (msg : Str)
  | fetchNotFound
  | fetchOk (readme : Str)
  deriving Repr, DecidableEq

/-- `fetchProfileReadme`: a 404 returns `null`; any error escaping the retry
wrapper is caught, logged and turned into `null` as well. -/
def fetchProfileReadme : FetchOutcome → Option Str
  | .fetchThrows _ => none
  | .fetchNotFound => none
  | .fetchOk readme => some readme

/-- Modelled from the spec: the JWT verifier (`verifyXAccountLinking` /
`getLinkingSecret` of `lib/x-api/jwtVerifier`) is not under `src/`.  Per the
spec a subject/signature mismatch yields `false` (never an exception); an
unexpected rejection of the verification step is represented separately. -/
inductive VerifyOutcome where
  | verified
  | notVerified
  | verifyThrows (msg : Str)
  deriving Repr, DecidableEq

/-- The per-run environment: fetch behaviour and verifier behaviour by
username. -/
structure ScanEnv where
  fetch : Str → FetchOutcome
  verify : Str → XLinkingData → VerifyOutcome

structure LinkedXAccountFromGitHub where
  githubUsername : Str
  xUsername : Str
  xUserId : Str
  linkedAt : Str
  linkingProof : Str
  lastUpdated : Str
  deriving Repr, DecidableEq

/-- A settled promise (`Promise.allSettled` element). -/
inductive Settled (α : Type) where
  | fulfilled (value : α)
  | rejected (msg : Str)

/-- `scanProfileForXAccount(username, githubToken)` with the default
`verifyJwt = true`. -/
def scanProfileForXAccount (env : ScanEnv) (username : Str) :
    Settled (Option LinkedXAccountFromGitHub) :=
  match fetchProfileReadme (env.fetch username) with
  | none => .fulfilled none
  | some readmeContent =>
    match parseXLinkingDataFromReadme readmeContent with
    | none => .fulfilled none
    | some d =>
      match env.verify username d with
      | .verifyThrows msg => .rejected msg
      | .notVerified => .fulfilled none
      | .verified => .fulfilled (some
          { githubUsername := username
            xUsername := d.xAccount.xUsername
            xUserId := d.xAccount.xUserId
            linkedAt := d.xAccount.linkedAt
            linkingProof := d.xAccount.linkingProof
            lastUpdated := d.lastUpdated })

structure ProfileScanResult where
  linkedAccounts : List LinkedXAccountFromGitHub
  scannedCount : Nat
  failedCount : Nat
  errors : List (Str × Str)
  deriving Repr, DecidableEq

/-- Per-settled-result bookkeeping of the inner loop of
`scanProfilesForXAccounts`. -/
def processScanResult (env : ScanEnv) (acc : ProfileScanResult) (username : Str) :
    ProfileScanResult :=
  let acc := { acc with scannedCount := acc.scannedCount + 1 }
  match scanProfileForXAccount env username with
  | .fulfilled (some v) => { acc with linkedAccounts := acc.linkedAccounts ++ [v] }
  | .fulfilled none => acc
  | .rejected msg =>
    { acc with
      failedCount := acc.failedCount + 1
      errors := acc.errors ++ [(username, if msg = [] then "Unknown error".data else msg)] }

/-- The batched scan loop (`for (i .. i += concurrency)` with
`Promise.allSettled` over each batch; settled results are folded in batch
order, so batching does not change the outcome).  `fuel` only bounds the
recursion; every call site uses `concurrency ≥ 1`, for which
`usernames.length` steps always suffice. -/
def scanGo (env : ScanEnv) (concurrency : Nat) :
    Nat → List Str → ProfileScanResult → ProfileScanResult
  | 0, _, acc => acc
  | _ + 1, [], acc => acc
  | fuel + 1, remaining, acc =>
    let batch := remaining.take concurrency
    let acc := batch.foldl (processScanResult env) acc
    scanGo env concurrency fuel (remaining.drop concurrency) acc

/-- `scanProfilesForXAccounts(usernames, options)`. -/
def scanProfilesForXAccounts (env : ScanEnv) (usernames : List Str)
    (concurrency : Nat := 5) : ProfileScanResult :=
  scanGo env concurrency usernames.length usernames ⟨[], 0, 0, []⟩

/-! ## Derived definitions used to state the claims -/

/-- The concatenation, over all day groups, of the per-day sorted-and-capped
activity lists that contribute to `totalScore`. -/
def cappedActivities (config : XScoringConfig) (activities : List XActivityRow) : List XActivityRow :=
  ((groupByKey (fun a => toDateString a.createdAt) activities).map
    (fun g => cappedDay config g.2)).flatten

/-- The pre-penalty score of an activity (type base times, for posts, the
mention/hashtag/media multipliers). -/
def activityBaseScore (activity : XActivityRow) (config : XScoringConfig) : ℚ :=
  if activity.activityType = "post".data then
    let m : ℚ := 1
    let m := if activity.mentionsSendoMarket then m * config.post.mentionsSendoMarket else m
    let m := if "sendo".data ∈ activity.hashtagsUsed then m * config.post.usesHashtag else m
    let m := if activity.mediaCount > 0 then m * config.post.hasMedia else m
    config.post.base * m
  else if activity.activityType = "quote".data then config.quote.base
  else if activity.activityType = "reply".data then config.reply.base
  else if activity.activityType = "repost".data then config.repost.base
  else 0

/-- No occurrence of `pat` starts anywhere in `t`
(`isPre pat (t.drop i)` already forces the whole pattern inside `t`). -/
def noOccursIn (pat t : Str) : Prop := ∀ i, isPre pat (t.drop i) = false

/-- The sentinel-pair condition of `generateUpdatedReadmeWithXInfo`
(`startIndex !== -1 && endIndex !== -1 && endIndex > startIndex`). -/
def hasMarkerPair (s : Str) : Bool :=
  match strIndexOf s X_SECTION_BEGIN_MARKER, strIndexOf s X_SECTION_END_MARKER with
  | some si, some ei => ei > si
  | _, _ => false

/-- The JSON value of a serialized `XLinkingData`, as produced by parsing its
pretty-printed text. -/
def xDataJson (d : XLinkingData) : Json :=
  .obj [("lastUpdated".data, .str d.lastUpdated),
        ("xAccount".data, .obj
          [("xUsername".data, .str d.xAccount.xUsername),
           ("xUserId".data, .str d.xAccount.xUserId),
           ("linkedAt".data, .str d.xAccount.linkedAt),
           ("linkingProof".data, .str d.xAccount.linkingProof)])]

/-- Pieces of the serialized scaffold around the quote characters; used to
re-associate the JSON text when reasoning about sentinel occurrences. -/
def jc1init : Str := "\x7b\n  \"lastUpdated\": ".data
def jc2mid : Str := ",\n  \"xAccount\": \x7b\n    \"xUsername\": ".data
def jc3mid : Str := ",\n    \"xUserId\": ".data
def jc4mid : Str := ",\n    \"linkedAt\": ".data
def jc5mid : Str := ",\n    \"linkingProof\": ".data
def jc6tail : Str := "\n  \x7d\n\x7d".data
def jc6open : Str := "\"\n  \x7d\n".data

/-- The fulfilled value of a settled scan, `none` for a rejection. -/
def settledValue : Settled (Option LinkedXAccountFromGitHub) → Option LinkedXAccountFromGitHub
  | .fulfilled v => v
  | .rejected _ => none

/-- Whether the per-username scan promise rejected. -/
def isScanRejected (env : ScanEnv) (u : Str) : Bool :=
  match scanProfileForXAccount env u with
  | .rejected _ => true
  | _ => false

/-- The error entry contributed by a username, if its scan rejected. -/
def rejectionEntry (env : ScanEnv) (u : Str) : Option (Str × Str) :=
  match scanProfileForXAccount env u with
  | .rejected msg => some (u, if msg = [] then "Unknown error".data else msg)
  | _ => none

/-- Predicates counted by the metrics accumulation. -/
def isPostType (a : XActivityRow) : Bool := a.activityType = "post".data
def isQuoteType (a : XActivityRow) : Bool := a.activityType = "quote".data
def isReplyType (a : XActivityRow) : Bool := a.activityType = "reply".data
def isRepostType (a : XActivityRow) : Bool := a.activityType = "repost".data
def hasMention (a : XActivityRow) : Bool := a.mentionsSendoMarket
def hasSendoHashtag (a : XActivityRow) : Bool := "sendo".data ∈ a.hashtagsUsed
def hasMediaAttached (a : XActivityRow) : Bool := a.mediaCount > 0

/-! ## Concrete fixtures for witnesses and counterexamples -/

def mkScoredPost (ment : Bool) (hts : List Str) (media : Nat) (created : Str) : XActivityRow :=
  { id := [], username := "alice".data, activityType := "post".data, content := [],
    targetPostId := none, targetUserId := none, isAboutSendo := true,
    mentionsSendoMarket := ment, hashtagsUsed := hts,
    mediaCount := media, engagementCount := some 0, likesCount := some 0,
    repostsCount := some 0, repliesCount := 0, viewsCount := some 0,
    createdAt := created, lastUpdated := [] }

/-- The four same-UTC-day "post" activities of the end-to-end example. -/
def exAct1 : XActivityRow := mkScoredPost false [] 0 "2024-03-05T10:00:00.000Z".data
def exAct2 : XActivityRow := mkScoredPost true [] 0 "2024-03-05T11:00:00.000Z".data
def exAct3 : XActivityRow := mkScoredPost true ["sendo".data] 0 "2024-03-05T12:00:00.000Z".data
def exAct4 : XActivityRow := mkScoredPost true ["sendo".data] 1 "2024-03-05T13:00:00.000Z".data

/-- Sixteen same-day plain posts (one more than `daily.maxPosts`). -/
def c6Activities : List XActivityRow :=
  (List.range 16).map (fun i =>
    mkScoredPost false [] 0
      ("2024-03-05T10:".data ++ [Char.ofNat (48 + i / 10), Char.ofNat (48 + i % 10)] ++
        ":00.000Z".data))

/-- The reference configuration with a negative post base. -/
def negBaseCfg : XScoringConfig :=
  { DEFAULT_X_SCORING with post := { DEFAULT_X_SCORING.post with base := -5 } }

def exNormPost : NormalizedXPost :=
  { id := "111".data, text := "gm @SendoMarket".data, authorId := "12345".data,
    authorUsername := "alice_x".data, authorName := "Alice".data,
    createdAt := "2024-03-05T10:00:00.000Z".data,
    likesCount := some 7, repostsCount := some 3, repliesCount := 2, quotesCount := 1,
    viewsCount := some 90, bookmarksCount := 4,
    isRetweet := false, isQuote := false, isReply := false,
    hashtags := ["sendo".data], mentions := [("sendomarket".data, "999".data)],
    mediaCount := 1 }

def exStoredRow : XActivityRow :=
  { id := "111".data, username := "alice".data, activityType := "post".data,
    content := "old text".data, targetPostId := none, targetUserId := none,
    isAboutSendo := true, mentionsSendoMarket := true, hashtagsUsed := ["sendo".data],
    mediaCount := 1, engagementCount := some 5, likesCount := some 2,
    repostsCount := some 1, repliesCount := 1, viewsCount := some 10,
    createdAt := "2024-03-05T10:00:00.000Z".data,
    lastUpdated := "2024-03-05T11:00:00.000Z".data }

/-- A flat raw post whose optional counters are all absent. -/
def exFlatNoLikes : XPostFlat :=
  { id := "1".data, text := "hello".data,
    createdAt := "Wed Oct 10 20:19:24 +0000 2018".data,
    likeCount := none, retweetCount := none, replyCount := none, quoteCount := none,
    bookmarkCount := none, viewCount := none, isReply := false,
    entities := ⟨none, none, none⟩, retweeted_tweet := false, quoted_tweet := false,
    author := ⟨"12345".data, "alice_x".data, "Alice".data⟩ }

/-- A legacy raw post with no author block and absent optional counters. -/
def exLegacyNoCore : XPostLegacy :=
  { rest_id := "2".data
    legacy :=
      { full_text := "hi".data, created_at := "Wed Oct 10 20:19:24 +0000 2018".data,
        favorite_count := none, retweet_count := none, reply_count := none,
        quote_count := none, bookmark_count := none, entities := ⟨none, none, none⟩,
        retweeted_status_id_str := none, quoted_status_id_str := none,
        in_reply_to_status_id_str := none, in_reply_to_user_id_str := none }
    core := none
    views := none }

def exTweet1 : XPostFlat := { exFlatNoLikes with id := "t1".data, likeCount := some 1 }
def exTweet2 : XPostFlat := { exFlatNoLikes with id := "t2".data, likeCount := some 2 }

/-- An upstream with two non-empty pages; page one advertises a continuation
(`next_cursor = "abc"`, `has_next_page = true`). -/
def exUpstream : Str → SearchPageData := fun c =>
  if c = [] then ⟨[exTweet1], some "abc".data, some true⟩
  else ⟨[exTweet2], none, some false⟩

def exClaim : LinkedXAccount :=
  ⟨"alice_x".data, "12345".data, "2024-01-01T00:00:00Z".data, "proofJWT".data⟩

/-- A claim that is schema-valid but whose proof field contains the end
sentinel verbatim. -/
def exBadClaim : LinkedXAccount :=
  ⟨"alice_x".data, "12345".data, "2024-01-01T00:00:00Z".data, "X-LINKING-END -->".data⟩

def exNow : Str := "2024-02-02T00:00:00.000Z".data

def exReadme : Str := xSectionText ⟨exNow, exClaim⟩

/-- Scan environment in which the fetch for "alice" always throws and "bob"
has a valid, verified claim in his README. -/
def exScanEnvThrows : ScanEnv :=
  { fetch := fun u => if u = "alice".data then .fetchThrows "boom".data else .fetchOk exReadme
    verify := fun _ _ => .verified }

/-- Scan environment in which the verification step rejects (throws) for
"carol" and the other usernames scan cleanly. -/
def exScanEnvRejects : ScanEnv :=
  { fetch := fun u => if u = "dave".data then .fetchNotFound else .fetchOk exReadme
    verify := fun u _ => if u = "carol".data then .verifyThrows "jwt broke".data else .verified }

/-! # Theorems -/

/-! ## String machinery: prefixes, occurrences, indexOf -/

theorem isPre_iff_take (p : Str) : ∀ t : Str, isPre p t = true ↔ t.take p.length = p := by
  induction p with
  | nil => intro t; simp [isPre]
  | cons x ps ih =>
    intro t
    cases t with
    | nil => simp [isPre]
    | cons y ts =>
      simp only [isPre, Bool.and_eq_true, decide_eq_true_eq, List.length_cons,
        List.take_succ_cons, List.cons.injEq, ih]
      constructor
      · rintro ⟨h1, h2⟩; exact ⟨h1.symm, h2⟩
      · rintro ⟨h1, h2⟩; exact ⟨h1.symm, h2⟩

theorem isPre_length_le (p t : Str) (h : isPre p t = true) : p.length ≤ t.length := by
  rw [isPre_iff_take] at h
  have := congrArg List.length h
  simp [List.length_take] at this
  omega

theorem isPre_append_self (p t : Str) : isPre p (p ++ t) = true := by
  rw [isPre_iff_take, List.take_append_eq_append_take]
  simp

theorem isPre_refl (p : Str) : isPre p p = true := by
  simpa using isPre_append_self p []

theorem isPre_nil_right (p : Str) (h : p ≠ []) : isPre p [] = false := by
  cases p with
  | nil => exact absurd rfl h
  | cons x ps => rfl

theorem noOccursIn_nil (p : Str) (h : p ≠ []) : noOccursIn p [] := by
  intro i
  simpa using isPre_nil_right p h

theorem noOccursIn_of_ball (pat t : Str) (hne : pat ≠ [])
    (h : ∀ i < t.length, isPre pat (t.drop i) = false) : noOccursIn pat t := by
  intro i
  by_cases hi : i < t.length
  · exact h i hi
  · rw [List.drop_eq_nil_of_le (by omega)]
    exact isPre_nil_right pat hne

theorem isPre_getElem? (pat t : Str) (i j : Nat) (h : isPre pat (t.drop i) = true)
    (hj : j < pat.length) : t[i + j]? = pat[j]? := by
  rw [isPre_iff_take] at h
  have h1 : pat[j]? = ((t.drop i).take pat.length)[j]? := by rw [h]
  rw [List.getElem?_take, if_pos hj] at h1
  rw [h1, List.getElem?_drop]

theorem isPre_within (pat a b : Str) (i : Nat) (hle : i + pat.length ≤ a.length)
    (h : isPre pat ((a ++ b).drop i) = true) : isPre pat (a.drop i) = true := by
  rw [isPre_iff_take] at h ⊢
  rw [List.drop_append_eq_append_drop, Nat.sub_eq_zero_of_le (by omega),
    List.drop_zero, List.take_append_eq_append_take] at h
  rw [List.length_drop] at h
  rw [Nat.sub_eq_zero_of_le (by omega), List.take_zero, List.append_nil] at h
  exact h

theorem strIndexOf_of_isPre (t p : Str) (h : isPre p t = true) : strIndexOf t p = some 0 := by
  unfold strIndexOf
  rw [if_pos h]

theorem strIndexOf_append_shift (p b : Str) :
    ∀ a : Str, (∀ i < a.length, isPre p ((a ++ b).drop i) = false) →
      strIndexOf (a ++ b) p = (strIndexOf b p).map (· + a.length) := by
  intro a
  induction a with
  | nil =>
    intro _
    cases h2 : strIndexOf b p <;> simp [h2]
  | cons c a' ih =>
    intro h
    have h0 : isPre p (c :: (a' ++ b)) = false := by simpa using h 0 (by simp)
    have hstep : strIndexOf (c :: (a' ++ b)) p = (strIndexOf (a' ++ b) p).map (· + 1) := by
      conv_lhs => unfold strIndexOf
      rw [if_neg (by simp [h0])]
    have ih' := ih (fun i hi => by
      have := h (i + 1) (by simp; omega)
      simpa using this)
    rw [List.cons_append, hstep, ih']
    cases h2 : strIndexOf b p <;> simp
    omega

theorem noOccursIn_cons (pat : Str) (q : Char) (b : Str) (hne : pat ≠ [])
    (hq : q ∉ pat) (hb : noOccursIn pat b) : noOccursIn pat (q :: b) := by
  intro i
  cases i with
  | zero =>
    simp only [List.drop_zero]
    cases pat with
    | nil => exact absurd rfl hne
    | cons p ps =>
      by_cases hpq : p = q
      · exact absurd (hpq ▸ List.mem_cons_self p ps) hq
      · simp [isPre, hpq]
  | succ i => simpa using hb i

theorem noOccursIn_append_break (pat a : Str) (q : Char) (b : Str) (_hne : pat ≠ [])
    (hq : q ∉ pat) (ha : noOccursIn pat a) (hqb : noOccursIn pat (q :: b)) :
    noOccursIn pat (a ++ q :: b) := by
  intro i
  by_contra hcon
  rw [Bool.not_eq_false] at hcon
  rcases lt_or_ge i a.length with hi | hi
  · rcases le_or_lt (i + pat.length) a.length with hfit | hspan
    · have h2 := isPre_within pat a (q :: b) i hfit hcon
      simp [ha i] at h2
    · have hj : a.length - i < pat.length := by omega
      have hcov := isPre_getElem? pat (a ++ q :: b) i (a.length - i) hcon hj
      rw [show i + (a.length - i) = a.length from by omega] at hcov
      have hqpos : (a ++ q :: b)[a.length]? = some q := by
        rw [List.getElem?_append_right (le_refl _)]
        simp
      rw [hqpos] at hcov
      exact hq ((List.mem_iff_getElem?).2 ⟨_, hcov.symm⟩)
  · have hdrop : (a ++ q :: b).drop i = (q :: b).drop (i - a.length) := by
      rw [List.drop_append_eq_append_drop, List.drop_eq_nil_of_le (by omega)]
      simp
    rw [hdrop] at hcon
    simp [hqb (i - a.length)] at hcon

theorem strIndexOf_append_sentinel (pat a' : Str) (q : Char) (_hne : pat ≠ [])
    (hq : q ∉ pat) (ha : noOccursIn pat (a' ++ [q])) :
    strIndexOf ((a' ++ [q]) ++ pat) pat = some (a'.length + 1) := by
  rw [strIndexOf_append_shift pat pat (a' ++ [q]) ?_]
  · rw [strIndexOf_of_isPre pat pat (isPre_refl pat)]
    simp
  · intro i hi
    by_contra hcon
    rw [Bool.not_eq_false] at hcon
    rcases le_or_lt (i + pat.length) (a' ++ [q]).length with hfit | hspan
    · have h2 := isPre_within pat (a' ++ [q]) pat i hfit hcon
      simp [ha i] at h2
    · rw [List.length_append, List.length_singleton] at hi hspan
      have hj : a'.length - i < pat.length := by omega
      have hcov := isPre_getElem? pat ((a' ++ [q]) ++ pat) i (a'.length - i) hcon hj
      rw [show i + (a'.length - i) = a'.length from by omega] at hcov
      have hqpos : ((a' ++ [q]) ++ pat)[a'.length]? = some q := by
        rw [List.getElem?_append, if_pos (by simp)]
        rw [List.getElem?_append_right (le_refl _)]
        simp
      rw [hqpos] at hcov
      exact hq ((List.mem_iff_getElem?).2 ⟨_, hcov.symm⟩)

/-! ## JSON escaping: occurrence reflection and string round-trip -/

theorem escChar_ne_nil (c : Char) : escChar c ≠ [] := by
  unfold escChar
  split_ifs <;> simp

theorem escChar_length_one (c : Char) (h : (escChar c).length = 1) : escChar c = [c] := by
  unfold escChar at h ⊢
  split_ifs at h ⊢ <;> simp_all

/-- Characters of a multi-character escape sequence never occur in the end
sentinel (backslash, quote, lowercase letters and hex digits are not among
its characters). -/
theorem escChar_multi_not_in_endMarker (d : Char) (hlen : (escChar d).length ≠ 1) :
    ∀ c ∈ escChar d, c ∉ X_SECTION_END_MARKER := by
  have hhex : ∀ n < 16, hexDigit n ∉ X_SECTION_END_MARKER := by decide
  unfold escChar at hlen ⊢
  split_ifs at hlen ⊢ with h1 h2 h3 h4 h5 h6 h7 h8
  case pos =>
    intro c hc
    simp only [List.mem_cons, List.not_mem_nil, or_false] at hc
    rcases hc with hc | hc <;> subst hc <;> decide
  case pos =>
    intro c hc
    simp only [List.mem_cons, List.not_mem_nil, or_false] at hc
    rcases hc with hc | hc <;> subst hc <;> decide
  case pos =>
    intro c hc
    simp only [List.mem_cons, List.not_mem_nil, or_false] at hc
    rcases hc with hc | hc <;> subst hc <;> decide
  case pos =>
    intro c hc
    simp only [List.mem_cons, List.not_mem_nil, or_false] at hc
    rcases hc with hc | hc <;> subst hc <;> decide
  case pos =>
    intro c hc
    simp only [List.mem_cons, List.not_mem_nil, or_false] at hc
    rcases hc with hc | hc <;> subst hc <;> decide
  case pos =>
    intro c hc
    simp only [List.mem_cons, List.not_mem_nil, or_false] at hc
    rcases hc with hc | hc <;> subst hc <;> decide
  case pos =>
    intro c hc
    simp only [List.mem_cons, List.not_mem_nil, or_false] at hc
    rcases hc with hc | hc <;> subst hc <;> decide
  case pos =>
    intro c hc
    have hdiv : d.toNat / 16 < 16 := by omega
    have hmod : d.toNat % 16 < 16 := by omega
    simp only [List.mem_cons, List.not_mem_nil, or_false] at hc
    rcases hc with hc | hc | hc | hc | hc | hc <;>
      first
        | (subst hc; decide)
        | (subst hc; exact hhex _ hdiv)
        | (subst hc; exact hhex _ hmod)
  · simp at hlen

theorem isPre_escape_reflect :
    ∀ (s pat : Str), (∀ c ∈ pat, c ∈ X_SECTION_END_MARKER) →
      isPre pat (escapeJson s) = true → isPre pat s = true := by
  intro s
  induction s with
  | nil =>
    intro pat _ h
    simp only [escapeJson, List.flatMap_nil] at h
    cases pat with
    | nil => rfl
    | cons p ps => simp [isPre] at h
  | cons c s' ih =>
    intro pat hsub h
    cases pat with
    | nil => rfl
    | cons p ps =>
      rw [show escapeJson (c :: s') = escChar c ++ escapeJson s' from by
        simp [escapeJson]] at h
      by_cases hlen : (escChar c).length = 1
      · rw [escChar_length_one c hlen, List.cons_append, List.nil_append] at h
        simp only [isPre, Bool.and_eq_true, decide_eq_true_eq] at h ⊢
        refine ⟨h.1, ?_⟩
        exact ih ps (fun x hx => hsub x (List.mem_cons_of_mem p hx)) h.2
      · obtain ⟨e0, etail, he⟩ : ∃ e0 etail, escChar c = e0 :: etail := by
          cases hec : escChar c with
          | nil => exact absurd hec (escChar_ne_nil c)
          | cons e0 etail => exact ⟨e0, etail, rfl⟩
        rw [he, List.cons_append] at h
        simp only [isPre, Bool.and_eq_true, decide_eq_true_eq] at h
        have hp : p ∈ escChar c := by rw [he]; exact h.1 ▸ List.mem_cons_self e0 etail
        exact absurd (hsub p (List.mem_cons_self p ps))
          (escChar_multi_not_in_endMarker c hlen p hp)

theorem noOccursIn_escape :
    ∀ s : Str, noOccursIn X_SECTION_END_MARKER s →
      noOccursIn X_SECTION_END_MARKER (escapeJson s) := by
  intro s
  induction s with
  | nil =>
    intro _
    simpa [escapeJson] using noOccursIn_nil X_SECTION_END_MARKER (by decide)
  | cons c s' ih =>
    intro hs
    have hs' : noOccursIn X_SECTION_END_MARKER s' := fun j => by simpa using hs (j + 1)
    have ih' := ih hs'
    intro i
    rw [show escapeJson (c :: s') = escChar c ++ escapeJson s' from by simp [escapeJson]]
    by_cases hi : i < (escChar c).length
    · by_contra hcon
      rw [Bool.not_eq_false] at hcon
      by_cases hlen : (escChar c).length = 1
      · have hc1 : escChar c = [c] := escChar_length_one c hlen
        have hi0 : i = 0 := by omega
        subst hi0
        rw [hc1, List.cons_append, List.nil_append, List.drop_zero] at hcon
        have hE : X_SECTION_END_MARKER = 'X' :: "-LINKING-END -->".data := by decide
        rw [hE] at hcon
        simp only [isPre, Bool.and_eq_true, decide_eq_true_eq] at hcon
        have htail : isPre "-LINKING-END -->".data s' = true :=
          isPre_escape_reflect s' "-LINKING-END -->".data (by decide) hcon.2
        have h0 := hs 0
        rw [List.drop_zero] at h0
        have hTrue : isPre X_SECTION_END_MARKER (c :: s') = true := by
          rw [hE]
          simp only [isPre, Bool.and_eq_true, decide_eq_true_eq]
          exact ⟨hcon.1, htail⟩
        rw [hTrue] at h0
        simp at h0
      · have hcov := isPre_getElem? X_SECTION_END_MARKER (escChar c ++ escapeJson s') i 0
          hcon (by decide)
        rw [Nat.add_zero] at hcov
        have hleft : (escChar c ++ escapeJson s')[i]? = (escChar c)[i]? := by
          rw [List.getElem?_append, if_pos hi]
        rw [hleft] at hcov
        have hXmem : 'X' ∈ escChar c := by
          have : (escChar c)[i]? = some 'X' := by
            rw [hcov]; decide
          exact (List.mem_iff_getElem?).2 ⟨_, this⟩
        exact escChar_multi_not_in_endMarker c hlen 'X' hXmem (by decide)
    · have hdrop : (escChar c ++ escapeJson s').drop i =
          (escapeJson s').drop (i - (escChar c).length) := by
        rw [List.drop_append_eq_append_drop, List.drop_eq_nil_of_le (by omega),
          List.nil_append]
      rw [hdrop]
      exact ih' _

theorem hexVal_hexDigit : ∀ n < 16, hexVal (hexDigit n) = some n := by decide

theorem parseStringBody_escape :
    ∀ s rest : Str, parseStringBody (escapeJson s ++ '"' :: rest) = some (s, rest) := by
  intro s
  induction s with
  | nil =>
    intro rest
    rw [show escapeJson [] = [] from rfl, List.nil_append]
    rw [parseStringBody.eq_def]
    simp
  | cons c s' ih =>
    intro rest
    rw [show escapeJson (c :: s') = escChar c ++ escapeJson s' from by simp [escapeJson],
      List.append_assoc]
    unfold escChar
    split_ifs with h1 h2 h3 h4 h5 h6 h7 h8
    · subst h1; simp [parseStringBody, unescChar, ih]
    · subst h2; simp [parseStringBody, unescChar, ih]
    · subst h3; simp [parseStringBody, unescChar, ih]
    · subst h4; simp [parseStringBody, unescChar, ih]
    · subst h5; simp [parseStringBody, unescChar, ih]
    · subst h6; simp [parseStringBody, unescChar, ih]
    · subst h7; simp [parseStringBody, unescChar, ih]
    · have hdiv : c.toNat / 16 < 16 := by omega
      have hmod : c.toNat % 16 < 16 := by omega
      have h00 : hexVal '0' = some 0 := by decide
      simp only [List.cons_append, List.nil_append]
      rw [show parseStringBody ('\\' :: 'u' :: '0' :: '0' ::
          hexDigit (c.toNat / 16) :: hexDigit (c.toNat % 16) ::
          (escapeJson s' ++ '"' :: rest)) =
          match hexVal '0', hexVal '0', hexVal (hexDigit (c.toNat / 16)),
            hexVal (hexDigit (c.toNat % 16)) with
          | some a, some b, some c2, some d =>
            (parseStringBody (escapeJson s' ++ '"' :: rest)).map
              (fun p => (Char.ofNat (((a * 16 + b) * 16 + c2) * 16 + d) :: p.1, p.2))
          | _, _, _, _ => none
        from by rfl]
      rw [h00, hexVal_hexDigit _ hdiv, hexVal_hexDigit _ hmod, ih]
      show some ((Char.ofNat (((0 * 16 + 0) * 16 + c.toNat / 16) * 16 + c.toNat % 16)) :: s',
        rest) = some (c :: s', rest)
      rw [show ((0 * 16 + 0) * 16 + c.toNat / 16) * 16 + c.toNat % 16 = c.toNat from by omega]
      rw [Char.ofNat_toNat]
    · rw [List.cons_append, parseStringBody.eq_def]
      simp [h1, h2, h8, ih]

/-! ### Parser evaluation steps -/

theorem parseValue_string_val (f : Nat) (pre s0 rest : Str)
    (hskip : skipWs pre = '"' :: (escapeJson s0 ++ '"' :: rest)) :
    parseValue (f + 1) pre = some (.str s0, rest) := by
  rw [parseValue, hskip]
  simp [parseStringBody_escape]

theorem parseMembersWith_last (pv : Str → Option (Json × Str)) (f : Nat)
    (input k r1 r2 r3 r4 : Str) (v : Json)
    (h1 : skipWs input = '"' :: (escapeJson k ++ '"' :: r1))
    (h2 : skipWs r1 = ':' :: r2)
    (h3 : pv r2 = some (v, r3))
    (h4 : skipWs r3 = '\x7d' :: r4) :
    parseMembersWith pv (f + 1) input = some ([(k, v)], r4) := by
  rw [parseMembersWith, h1]
  simp [parseStringBody_escape, h2, h3, h4]

theorem parseMembersWith_cons (pv : Str → Option (Json × Str)) (f : Nat)
    (input k r1 r2 r3 r4 rr : Str) (v : Json) (ms : List (Str × Json))
    (h1 : skipWs input = '"' :: (escapeJson k ++ '"' :: r1))
    (h2 : skipWs r1 = ':' :: r2)
    (h3 : pv r2 = some (v, r3))
    (h4 : skipWs r3 = ',' :: r4)
    (h5 : parseMembersWith pv f r4 = some (ms, rr)) :
    parseMembersWith pv (f + 1) input = some ((k, v) :: ms, rr) := by
  rw [parseMembersWith, h1]
  simp [parseStringBody_escape, h2, h3, h4, h5]

theorem parseValue_obj (f : Nat) (pre rest mrest : Str) (ms : List (Str × Json)) (rr : Str)
    (hskip : skipWs pre = '\x7b' :: rest)
    (hrest : skipWs rest = '"' :: mrest)
    (hmem : parseMembersWith (parseValue f) (rest.length + 1) rest = some (ms, rr)) :
    parseValue (f + 1) pre = some (.obj ms, rr) := by
  rw [parseValue, hskip]
  simp [hrest, hmem]

/-- The serialized text in fully right-nested form. -/
theorem stringify_decomp (d : XLinkingData) :
    stringifyXData d = '\x7b' :: '\n' :: ' ' :: ' ' :: '"' ::
      ("lastUpdated".data ++ '"' :: ':' :: ' ' :: '"' ::
      (escapeJson d.lastUpdated ++ '"' :: ',' :: '\n' :: ' ' :: ' ' :: '"' ::
      ("xAccount".data ++ '"' :: ':' :: ' ' :: '\x7b' :: '\n' :: ' ' :: ' ' :: ' ' :: ' ' :: '"' ::
      ("xUsername".data ++ '"' :: ':' :: ' ' :: '"' ::
      (escapeJson d.xAccount.xUsername ++ '"' :: ',' :: '\n' :: ' ' :: ' ' :: ' ' :: ' ' :: '"' ::
      ("xUserId".data ++ '"' :: ':' :: ' ' :: '"' ::
      (escapeJson d.xAccount.xUserId ++ '"' :: ',' :: '\n' :: ' ' :: ' ' :: ' ' :: ' ' :: '"' ::
      ("linkedAt".data ++ '"' :: ':' :: ' ' :: '"' ::
      (escapeJson d.xAccount.linkedAt ++ '"' :: ',' :: '\n' :: ' ' :: ' ' :: ' ' :: ' ' :: '"' ::
      ("linkingProof".data ++ '"' :: ':' :: ' ' :: '"' ::
      (escapeJson d.xAccount.linkingProof ++
        '"' :: '\n' :: ' ' :: ' ' :: '\x7d' :: '\n' :: '\x7d' :: []))))))))))) := by
  unfold stringifyXData
  rw [show jsonChunk1 = '\x7b' :: '\n' :: ' ' :: ' ' :: '"' ::
      ("lastUpdated".data ++ ['"', ':', ' ', '"']) from by decide]
  rw [show jsonChunk2 = '"' :: ',' :: '\n' :: ' ' :: ' ' :: '"' ::
      ("xAccount".data ++ ['"', ':', ' ', '\x7b', '\n', ' ', ' ', ' ', ' ', '"'] ++
        "xUsername".data ++ ['"', ':', ' ', '"']) from by decide]
  rw [show jsonChunk3 = '"' :: ',' :: '\n' :: ' ' :: ' ' :: ' ' :: ' ' :: '"' ::
      ("xUserId".data ++ ['"', ':', ' ', '"']) from by decide]
  rw [show jsonChunk4 = '"' :: ',' :: '\n' :: ' ' :: ' ' :: ' ' :: ' ' :: '"' ::
      ("linkedAt".data ++ ['"', ':', ' ', '"']) from by decide]
  rw [show jsonChunk5 = '"' :: ',' :: '\n' :: ' ' :: ' ' :: ' ' :: ' ' :: '"' ::
      ("linkingProof".data ++ ['"', ':', ' ', '"']) from by decide]
  rw [show jsonChunk6 = ['"', '\n', ' ', ' ', '\x7d', '\n', '\x7d'] from by decide]
  simp [List.append_assoc]

/-- Parsing the serialized `XLinkingData` text yields its JSON value and
consumes the whole input. -/
theorem parseValue_stringify (d : XLinkingData) (f : Nat) :
    parseValue (f + 3) (stringifyXData d) = some (xDataJson d, []) := by
  have hsp : ∀ t : Str, skipWs (' ' :: t) = skipWs t := by intro t; simp [skipWs, isJsWs]
  have hnl : ∀ t : Str, skipWs ('\n' :: t) = skipWs t := by intro t; simp [skipWs, isJsWs]
  have hq : ∀ t : Str, skipWs ('"' :: t) = '"' :: t := by intro t; simp [skipWs, isJsWs]
  have hcm : ∀ t : Str, skipWs (',' :: t) = ',' :: t := by intro t; simp [skipWs, isJsWs]
  have hcl : ∀ t : Str, skipWs (':' :: t) = ':' :: t := by intro t; simp [skipWs, isJsWs]
  have hob : ∀ t : Str, skipWs ('\x7b' :: t) = '\x7b' :: t := by intro t; simp [skipWs, isJsWs]
  have hcb : ∀ t : Str, skipWs ('\x7d' :: t) = '\x7d' :: t := by intro t; simp [skipWs, isJsWs]
  -- the tail after the linkingProof value
  set fin : Str := '\n' :: ' ' :: ' ' :: '\x7d' :: '\n' :: '\x7d' :: [] with hfin
  -- inner member tails
  set ir3 : Str := '\n' :: ' ' :: ' ' :: ' ' :: ' ' :: '"' ::
    ("linkingProof".data ++ '"' :: ':' :: ' ' :: '"' ::
      (escapeJson d.xAccount.linkingProof ++ '"' :: fin)) with hir3
  set ir2 : Str := '\n' :: ' ' :: ' ' :: ' ' :: ' ' :: '"' ::
    ("linkedAt".data ++ '"' :: ':' :: ' ' :: '"' ::
      (escapeJson d.xAccount.linkedAt ++ '"' :: ',' :: ir3)) with hir2
  set ir1 : Str := '\n' :: ' ' :: ' ' :: ' ' :: ' ' :: '"' ::
    ("xUserId".data ++ '"' :: ':' :: ' ' :: '"' ::
      (escapeJson d.xAccount.xUserId ++ '"' :: ',' :: ir2)) with hir1
  set ir0 : Str := '\n' :: ' ' :: ' ' :: ' ' :: ' ' :: '"' ::
    ("xUsername".data ++ '"' :: ':' :: ' ' :: '"' ::
      (escapeJson d.xAccount.xUsername ++ '"' :: ',' :: ir1)) with hir0
  have hkXU : escapeJson "xUsername".data = "xUsername".data := by decide
  have hkID : escapeJson "xUserId".data = "xUserId".data := by decide
  have hkLA : escapeJson "linkedAt".data = "linkedAt".data := by decide
  have hkLP : escapeJson "linkingProof".data = "linkingProof".data := by decide
  have hkLU : escapeJson "lastUpdated".data = "lastUpdated".data := by decide
  have hkXA : escapeJson "xAccount".data = "xAccount".data := by decide
  -- member 4: linkingProof (last)
  have S4 : ∀ n : Nat, parseMembersWith (parseValue (f + 1)) (n + 1) ir3 =
      some ([("linkingProof".data, .str d.xAccount.linkingProof)], '\n' :: '\x7d' :: []) := by
    intro n
    refine parseMembersWith_last _ n ir3 "linkingProof".data
      (':' :: ' ' :: '"' :: (escapeJson d.xAccount.linkingProof ++ '"' :: fin))
      (' ' :: '"' :: (escapeJson d.xAccount.linkingProof ++ '"' :: fin))
      fin ('\n' :: '\x7d' :: []) _ ?_ ?_ ?_ ?_
    · rw [hir3, hnl, hsp, hsp, hsp, hsp, hq, hkLP]
    · rw [hcl]
    · rw [show f + 1 = f + 1 from rfl]
      exact parseValue_string_val f _ _ _ (by rw [hsp, hq])
    · rw [hfin, hnl, hsp, hsp, hcb]
  -- member 3: linkedAt
  have S3 : ∀ n : Nat, parseMembersWith (parseValue (f + 1)) (n + 2) ir2 =
      some ([("linkedAt".data, .str d.xAccount.linkedAt),
             ("linkingProof".data, .str d.xAccount.linkingProof)], '\n' :: '\x7d' :: []) := by
    intro n
    refine parseMembersWith_cons _ (n + 1) ir2 "linkedAt".data
      (':' :: ' ' :: '"' :: (escapeJson d.xAccount.linkedAt ++ '"' :: ',' :: ir3))
      (' ' :: '"' :: (escapeJson d.xAccount.linkedAt ++ '"' :: ',' :: ir3))
      (',' :: ir3) ir3 _ _ _ ?_ ?_ ?_ ?_ (S4 n)
    · rw [hir2, hnl, hsp, hsp, hsp, hsp, hq, hkLA]
    · rw [hcl]
    · exact parseValue_string_val f _ _ _ (by rw [hsp, hq])
    · rw [hcm]
  -- member 2: xUserId
  have S2 : ∀ n : Nat, parseMembersWith (parseValue (f + 1)) (n + 3) ir1 =
      some ([("xUserId".data, .str d.xAccount.xUserId),
             ("linkedAt".data, .str d.xAccount.linkedAt),
             ("linkingProof".data, .str d.xAccount.linkingProof)], '\n' :: '\x7d' :: []) := by
    intro n
    refine parseMembersWith_cons _ (n + 2) ir1 "xUserId".data
      (':' :: ' ' :: '"' :: (escapeJson d.xAccount.xUserId ++ '"' :: ',' :: ir2))
      (' ' :: '"' :: (escapeJson d.xAccount.xUserId ++ '"' :: ',' :: ir2))
      (',' :: ir2) ir2 _ _ _ ?_ ?_ ?_ ?_ (S3 n)
    · rw [hir1, hnl, hsp, hsp, hsp, hsp, hq, hkID]
    · rw [hcl]
    · exact parseValue_string_val f _ _ _ (by rw [hsp, hq])
    · rw [hcm]
  -- member 1: xUsername
  have S1 : ∀ n : Nat, parseMembersWith (parseValue (f + 1)) (n + 4) ir0 =
      some ([("xUsername".data, .str d.xAccount.xUsername),
             ("xUserId".data, .str d.xAccount.xUserId),
             ("linkedAt".data, .str d.xAccount.linkedAt),
             ("linkingProof".data, .str d.xAccount.linkingProof)], '\n' :: '\x7d' :: []) := by
    intro n
    refine parseMembersWith_cons _ (n + 3) ir0 "xUsername".data
      (':' :: ' ' :: '"' :: (escapeJson d.xAccount.xUsername ++ '"' :: ',' :: ir1))
      (' ' :: '"' :: (escapeJson d.xAccount.xUsername ++ '"' :: ',' :: ir1))
      (',' :: ir1) ir1 _ _ _ ?_ ?_ ?_ ?_ (S2 n)
    · rw [hir0, hnl, hsp, hsp, hsp, hsp, hq, hkXU]
    · rw [hcl]
    · exact parseValue_string_val f _ _ _ (by rw [hsp, hq])
    · rw [hcm]
  -- the xAccount object value
  have hlen0 : 3 ≤ ir0.length := by
    rw [hir0]
    simp
  have Hobj : parseValue (f + 2) (' ' :: '\x7b' :: ir0) =
      some (.obj [("xUsername".data, .str d.xAccount.xUsername),
                  ("xUserId".data, .str d.xAccount.xUserId),
                  ("linkedAt".data, .str d.xAccount.linkedAt),
                  ("linkingProof".data, .str d.xAccount.linkingProof)],
            '\n' :: '\x7d' :: []) := by
    rw [show f + 2 = (f + 1) + 1 from rfl]
    refine parseValue_obj (f + 1) _ ir0
      ("xUsername".data ++ '"' :: ':' :: ' ' :: '"' ::
        (escapeJson d.xAccount.xUsername ++ '"' :: ',' :: ir1))
      _ _ (by rw [hsp, hob]) ?_ ?_
    · rw [hir0, hnl, hsp, hsp, hsp, hsp, hq]
    · rw [show ir0.length + 1 = (ir0.length - 3) + 4 from by omega]
      exact S1 _
  -- outer members
  set or1 : Str := '\n' :: ' ' :: ' ' :: '"' ::
    ("xAccount".data ++ '"' :: ':' :: ' ' :: '\x7b' :: ir0) with hor1
  set or0 : Str := '\n' :: ' ' :: ' ' :: '"' ::
    ("lastUpdated".data ++ '"' :: ':' :: ' ' :: '"' ::
      (escapeJson d.lastUpdated ++ '"' :: ',' :: or1)) with hor0
  have O2 : ∀ n : Nat, parseMembersWith (parseValue (f + 2)) (n + 1) or1 =
      some ([("xAccount".data,
              .obj [("xUsername".data, .str d.xAccount.xUsername),
                    ("xUserId".data, .str d.xAccount.xUserId),
                    ("linkedAt".data, .str d.xAccount.linkedAt),
                    ("linkingProof".data, .str d.xAccount.linkingProof)])], []) := by
    intro n
    refine parseMembersWith_last _ n or1 "xAccount".data
      (':' :: ' ' :: '\x7b' :: ir0)
      (' ' :: '\x7b' :: ir0)
      ('\n' :: '\x7d' :: []) [] _ ?_ ?_ ?_ ?_
    · rw [hor1, hnl, hsp, hsp, hq, hkXA]
    · rw [hcl]
    · exact Hobj
    · rw [hnl, hcb]
  have O1 : ∀ n : Nat, parseMembersWith (parseValue (f + 2)) (n + 2) or0 =
      some ([("lastUpdated".data, .str d.lastUpdated),
             ("xAccount".data,
              .obj [("xUsername".data, .str d.xAccount.xUsername),
                    ("xUserId".data, .str d.xAccount.xUserId),
                    ("linkedAt".data, .str d.xAccount.linkedAt),
                    ("linkingProof".data, .str d.xAccount.linkingProof)])], []) := by
    intro n
    refine parseMembersWith_cons _ (n + 1) or0 "lastUpdated".data
      (':' :: ' ' :: '"' :: (escapeJson d.lastUpdated ++ '"' :: ',' :: or1))
      (' ' :: '"' :: (escapeJson d.lastUpdated ++ '"' :: ',' :: or1))
      (',' :: or1) or1 [] _ _ ?_ ?_ ?_ ?_ (O2 n)
    · rw [hor0, hnl, hsp, hsp, hq, hkLU]
    · rw [hcl]
    · exact parseValue_string_val (f + 1) _ _ _ (by rw [hsp, hq])
    · rw [hcm]
  have hlen1 : 1 ≤ or0.length := by
    rw [hor0]
    simp
  rw [show f + 3 = (f + 2) + 1 from rfl]
  refine parseValue_obj (f + 2) _ or0
    ("lastUpdated".data ++ '"' :: ':' :: ' ' :: '"' ::
      (escapeJson d.lastUpdated ++ '"' :: ',' :: or1))
    _ _ ?_ ?_ ?_
  · rw [stringify_decomp d, hor0, hor1, hir0, hir1, hir2, hir3, hfin, hob]
  · rw [hor0, hnl, hsp, hsp, hq]
  · rw [show or0.length + 1 = (or0.length - 1) + 2 from by omega]
    exact O1 _

/-- `jsonParse` of the serialized text returns exactly its JSON value. -/
theorem jsonParse_stringify (d : XLinkingData) :
    jsonParse (stringifyXData d) = some (xDataJson d) := by
  unfold jsonParse
  have h2 : 2 ≤ (stringifyXData d).length := by
    rw [stringify_decomp d]
    simp
  rw [show (stringifyXData d).length + 1 = ((stringifyXData d).length - 2) + 3 from by omega]
  rw [parseValue_stringify d]
  simp [skipWs]

/-! ### Occurrence chain over the serialized section -/

/-- No occurrence of `pat` can start inside a block none of whose characters
matches the head of `pat`. -/
theorem noOccursIn_append_noHead (pat a b : Str) (hne : pat ≠ [])
    (hhd : ∀ c ∈ a, pat.head? ≠ some c) (hb : noOccursIn pat b) :
    noOccursIn pat (a ++ b) := by
  intro i
  by_contra hcon
  rw [Bool.not_eq_false] at hcon
  rcases lt_or_ge i a.length with hi | hi
  · obtain ⟨p, ps, hp⟩ : ∃ p ps, pat = p :: ps := by
      cases pat with
      | nil => exact absurd rfl hne
      | cons p ps => exact ⟨p, ps, rfl⟩
    have hcov := isPre_getElem? pat (a ++ b) i 0 hcon (by rw [hp]; simp)
    rw [Nat.add_zero] at hcov
    have hai : (a ++ b)[i]? = a[i]? := by
      rw [List.getElem?_append, if_pos hi]
    rw [hai, hp] at hcov
    obtain ⟨c, hc⟩ : ∃ c, a[i]? = some c := by
      cases h : a[i]? with
      | none => rw [h] at hcov; exact absurd hcov (by simp)
      | some c => exact ⟨c, rfl⟩
    have hmem : c ∈ a := (List.mem_iff_getElem?).2 ⟨_, hc⟩
    have : pat.head? = some c := by
      rw [hp]
      rw [hc] at hcov
      simp only [List.getElem?_cons_zero] at hcov
      simpa using hcov.symm
    exact hhd c hmem this
  · have hdrop : (a ++ b).drop i = b.drop (i - a.length) := by
      rw [List.drop_append_eq_append_drop, List.drop_eq_nil_of_le (by omega),
        List.nil_append]
    rw [hdrop] at hcon
    simp [hb (i - a.length)] at hcon

/-- No end sentinel occurs anywhere in the serialized JSON text, provided
none occurs in the five string fields. -/
theorem noOccursIn_stringify (d : XLinkingData)
    (h1 : noOccursIn X_SECTION_END_MARKER d.lastUpdated)
    (h2 : noOccursIn X_SECTION_END_MARKER d.xAccount.xUsername)
    (h3 : noOccursIn X_SECTION_END_MARKER d.xAccount.xUserId)
    (h4 : noOccursIn X_SECTION_END_MARKER d.xAccount.linkedAt)
    (h5 : noOccursIn X_SECTION_END_MARKER d.xAccount.linkingProof) :
    noOccursIn X_SECTION_END_MARKER (stringifyXData d) := by
  have hne : X_SECTION_END_MARKER ≠ [] := by decide
  have hq : '"' ∉ X_SECTION_END_MARKER := by decide
  have hquote : ∀ t : Str, noOccursIn X_SECTION_END_MARKER t →
      noOccursIn X_SECTION_END_MARKER ('"' :: t) := by
    intro t ht
    have := noOccursIn_append_noHead X_SECTION_END_MARKER ['"'] t hne (by decide) ht
    simpa using this
  have W6 : noOccursIn X_SECTION_END_MARKER jc6tail := by
    refine noOccursIn_of_ball _ _ hne ?_
    decide
  have W5 : noOccursIn X_SECTION_END_MARKER
      (escapeJson d.xAccount.linkingProof ++ jsonChunk6) := by
    rw [show jsonChunk6 = '"' :: jc6tail from by decide]
    exact noOccursIn_append_break _ _ '"' _ hne hq (noOccursIn_escape _ h5) (hquote _ W6)
  have V5 : noOccursIn X_SECTION_END_MARKER
      (jc5mid ++ ('"' :: (escapeJson d.xAccount.linkingProof ++ jsonChunk6))) := by
    refine noOccursIn_append_noHead _ _ _ hne (by decide) (hquote _ W5)
  have W4 : noOccursIn X_SECTION_END_MARKER
      (escapeJson d.xAccount.linkedAt ++
        (jsonChunk5 ++ (escapeJson d.xAccount.linkingProof ++ jsonChunk6))) := by
    rw [show jsonChunk5 = '"' :: (jc5mid ++ ['"']) from by decide]
    rw [show ('"' :: (jc5mid ++ ['"'])) ++
        (escapeJson d.xAccount.linkingProof ++ jsonChunk6) =
        '"' :: (jc5mid ++ ('"' :: (escapeJson d.xAccount.linkingProof ++ jsonChunk6)))
      from by simp]
    exact noOccursIn_append_break _ _ '"' _ hne hq (noOccursIn_escape _ h4) (hquote _ V5)
  have V4 : noOccursIn X_SECTION_END_MARKER
      (jc4mid ++ ('"' :: (escapeJson d.xAccount.linkedAt ++
        (jsonChunk5 ++ (escapeJson d.xAccount.linkingProof ++ jsonChunk6))))) := by
    refine noOccursIn_append_noHead _ _ _ hne (by decide) (hquote _ W4)
  have W3 : noOccursIn X_SECTION_END_MARKER
      (escapeJson d.xAccount.xUserId ++
        (jsonChunk4 ++ (escapeJson d.xAccount.linkedAt ++
          (jsonChunk5 ++ (escapeJson d.xAccount.linkingProof ++ jsonChunk6))))) := by
    rw [show jsonChunk4 = '"' :: (jc4mid ++ ['"']) from by decide]
    rw [show ('"' :: (jc4mid ++ ['"'])) ++
        (escapeJson d.xAccount.linkedAt ++
          (jsonChunk5 ++ (escapeJson d.xAccount.linkingProof ++ jsonChunk6))) =
        '"' :: (jc4mid ++ ('"' :: (escapeJson d.xAccount.linkedAt ++
          (jsonChunk5 ++ (escapeJson d.xAccount.linkingProof ++ jsonChunk6)))))
      from by simp]
    exact noOccursIn_append_break _ _ '"' _ hne hq (noOccursIn_escape _ h3) (hquote _ V4)
  have V3 : noOccursIn X_SECTION_END_MARKER
      (jc3mid ++ ('"' :: (escapeJson d.xAccount.xUserId ++
        (jsonChunk4 ++ (escapeJson d.xAccount.linkedAt ++
          (jsonChunk5 ++ (escapeJson d.xAccount.linkingProof ++ jsonChunk6))))))) := by
    refine noOccursIn_append_noHead _ _ _ hne (by decide) (hquote _ W3)
  have W2 : noOccursIn X_SECTION_END_MARKER
      (escapeJson d.xAccount.xUsername ++
        (jsonChunk3 ++ (escapeJson d.xAccount.xUserId ++
          (jsonChunk4 ++ (escapeJson d.xAccount.linkedAt ++
            (jsonChunk5 ++ (escapeJson d.xAccount.linkingProof ++ jsonChunk6))))))) := by
    rw [show jsonChunk3 = '"' :: (jc3mid ++ ['"']) from by decide]
    rw [show ('"' :: (jc3mid ++ ['"'])) ++
        (escapeJson d.xAccount.xUserId ++
          (jsonChunk4 ++ (escapeJson d.xAccount.linkedAt ++
            (jsonChunk5 ++ (escapeJson d.xAccount.linkingProof ++ jsonChunk6))))) =
        '"' :: (jc3mid ++ ('"' :: (escapeJson d.xAccount.xUserId ++
          (jsonChunk4 ++ (escapeJson d.xAccount.linkedAt ++
            (jsonChunk5 ++ (escapeJson d.xAccount.linkingProof ++ jsonChunk6)))))))
      from by simp]
    exact noOccursIn_append_break _ _ '"' _ hne hq (noOccursIn_escape _ h2) (hquote _ V3)
  have V2 : noOccursIn X_SECTION_END_MARKER
      (jc2mid ++ ('"' :: (escapeJson d.xAccount.xUsername ++
        (jsonChunk3 ++ (escapeJson d.xAccount.xUserId ++
          (jsonChunk4 ++ (escapeJson d.xAccount.linkedAt ++
            (jsonChunk5 ++ (escapeJson d.xAccount.linkingProof ++ jsonChunk6))))))))) := by
    refine noOccursIn_append_noHead _ _ _ hne (by decide) (hquote _ W2)
  have W1 : noOccursIn X_SECTION_END_MARKER
      (escapeJson d.lastUpdated ++
        (jsonChunk2 ++ (escapeJson d.xAccount.xUsername ++
          (jsonChunk3 ++ (escapeJson d.xAccount.xUserId ++
            (jsonChunk4 ++ (escapeJson d.xAccount.linkedAt ++
              (jsonChunk5 ++ (escapeJson d.xAccount.linkingProof ++ jsonChunk6))))))))) := by
    rw [show jsonChunk2 = '"' :: (jc2mid ++ ['"']) from by decide]
    rw [show ('"' :: (jc2mid ++ ['"'])) ++
        (escapeJson d.xAccount.xUsername ++
          (jsonChunk3 ++ (escapeJson d.xAccount.xUserId ++
            (jsonChunk4 ++ (escapeJson d.xAccount.linkedAt ++
              (jsonChunk5 ++ (escapeJson d.xAccount.linkingProof ++ jsonChunk6))))))) =
        '"' :: (jc2mid ++ ('"' :: (escapeJson d.xAccount.xUsername ++
          (jsonChunk3 ++ (escapeJson d.xAccount.xUserId ++
            (jsonChunk4 ++ (escapeJson d.xAccount.linkedAt ++
              (jsonChunk5 ++ (escapeJson d.xAccount.linkingProof ++ jsonChunk6)))))))))
      from by simp]
    exact noOccursIn_append_break _ _ '"' _ hne hq (noOccursIn_escape _ h1) (hquote _ V2)
  have hassoc : stringifyXData d = jsonChunk1 ++
      (escapeJson d.lastUpdated ++ (jsonChunk2 ++ (escapeJson d.xAccount.xUsername ++
        (jsonChunk3 ++ (escapeJson d.xAccount.xUserId ++ (jsonChunk4 ++
          (escapeJson d.xAccount.linkedAt ++ (jsonChunk5 ++
            (escapeJson d.xAccount.linkingProof ++ jsonChunk6))))))))) := by
    unfold stringifyXData
    simp [List.append_assoc]
  rw [hassoc]
  exact noOccursIn_append_noHead _ _ _ hne (by decide) W1

/-! ### Extracting and validating the section -/

/-- Trimming the newline-wrapped JSON body recovers it exactly. -/
theorem jsTrim_newline_wrap (l : Str) (h1 : ∃ t, l = '\x7b' :: t)
    (h2 : ∃ l', l = l' ++ ['\x7d']) : jsTrim ('\n' :: (l ++ ['\n'])) = l := by
  obtain ⟨t, ht⟩ := h1
  obtain ⟨l', hl⟩ := h2
  unfold jsTrim
  rw [show List.dropWhile isJsWs ('\n' :: (l ++ ['\n'])) =
      List.dropWhile isJsWs (l ++ ['\n']) from by
    simp [List.dropWhile, show isJsWs '\n' = true from by decide]]
  rw [show List.dropWhile isJsWs (l ++ ['\n']) = l ++ ['\n'] from by
    rw [ht]; simp [List.dropWhile, isJsWs]]
  rw [show (l ++ ['\n']).reverse = '\n' :: l.reverse from by simp]
  rw [show List.dropWhile isJsWs ('\n' :: l.reverse) = List.dropWhile isJsWs l.reverse from by
    simp [List.dropWhile, show isJsWs '\n' = true from by decide]]
  rw [show List.dropWhile isJsWs l.reverse = l.reverse from by
    rw [hl]; simp [List.dropWhile, isJsWs]]
  simp

/-- The JSON body of the serialized data starts with an opening brace. -/
theorem stringify_head (d : XLinkingData) : ∃ t, stringifyXData d = '\x7b' :: t := by
  refine ⟨_, stringify_decomp d⟩

/-- The JSON body of the serialized data ends with a closing brace. -/
theorem stringify_last (d : XLinkingData) :
    ∃ l', stringifyXData d = l' ++ ['\x7d'] := by
  refine ⟨jsonChunk1 ++ escapeJson d.lastUpdated ++ jsonChunk2 ++
    escapeJson d.xAccount.xUsername ++ jsonChunk3 ++ escapeJson d.xAccount.xUserId ++
    jsonChunk4 ++ escapeJson d.xAccount.linkedAt ++ jsonChunk5 ++
    escapeJson d.xAccount.linkingProof ++ jc6open, ?_⟩
  unfold stringifyXData
  rw [show jsonChunk6 = jc6open ++ ['\x7d'] from by decide]
  simp

/-- The schema check on the parsed JSON value recovers the data exactly. -/
theorem safeParse_xDataJson (d : XLinkingData) (hval : validXLinkingData d = true) :
    xLinkingDataSafeParse (xDataJson d) = some d := by
  unfold validXLinkingData at hval
  rw [Bool.and_eq_true] at hval
  have hacc : linkedXAccountSafeParse (Json.obj
      [("xUsername".data, Json.str d.xAccount.xUsername),
       ("xUserId".data, Json.str d.xAccount.xUserId),
       ("linkedAt".data, Json.str d.xAccount.linkedAt),
       ("linkingProof".data, Json.str d.xAccount.linkingProof)]) = some d.xAccount := by
    simp only [linkedXAccountSafeParse]
    rw [show jLookup "xUsername".data
        [("xUsername".data, Json.str d.xAccount.xUsername),
         ("xUserId".data, Json.str d.xAccount.xUserId),
         ("linkedAt".data, Json.str d.xAccount.linkedAt),
         ("linkingProof".data, Json.str d.xAccount.linkingProof)] =
        some (Json.str d.xAccount.xUsername) from by simp +decide [jLookup]]
    rw [show jLookup "xUserId".data
        [("xUsername".data, Json.str d.xAccount.xUsername),
         ("xUserId".data, Json.str d.xAccount.xUserId),
         ("linkedAt".data, Json.str d.xAccount.linkedAt),
         ("linkingProof".data, Json.str d.xAccount.linkingProof)] =
        some (Json.str d.xAccount.xUserId) from by simp +decide [jLookup]]
    rw [show jLookup "linkedAt".data
        [("xUsername".data, Json.str d.xAccount.xUsername),
         ("xUserId".data, Json.str d.xAccount.xUserId),
         ("linkedAt".data, Json.str d.xAccount.linkedAt),
         ("linkingProof".data, Json.str d.xAccount.linkingProof)] =
        some (Json.str d.xAccount.linkedAt) from by simp +decide [jLookup]]
    rw [show jLookup "linkingProof".data
        [("xUsername".data, Json.str d.xAccount.xUsername),
         ("xUserId".data, Json.str d.xAccount.xUserId),
         ("linkedAt".data, Json.str d.xAccount.linkedAt),
         ("linkingProof".data, Json.str d.xAccount.linkingProof)] =
        some (Json.str d.xAccount.linkingProof) from by simp +decide [jLookup]]
    simp [asStr, hval.2]
  simp only [xLinkingDataSafeParse, xDataJson]
  rw [show jLookup "lastUpdated".data
      [("lastUpdated".data, Json.str d.lastUpdated),
       ("xAccount".data, Json.obj
         [("xUsername".data, Json.str d.xAccount.xUsername),
          ("xUserId".data, Json.str d.xAccount.xUserId),
          ("linkedAt".data, Json.str d.xAccount.linkedAt),
          ("linkingProof".data, Json.str d.xAccount.linkingProof)])] =
      some (Json.str d.lastUpdated) from by simp +decide [jLookup]]
  rw [show jLookup "xAccount".data
      [("lastUpdated".data, Json.str d.lastUpdated),
       ("xAccount".data, Json.obj
         [("xUsername".data, Json.str d.xAccount.xUsername),
          ("xUserId".data, Json.str d.xAccount.xUserId),
          ("linkedAt".data, Json.str d.xAccount.linkedAt),
          ("linkingProof".data, Json.str d.xAccount.linkingProof)])] =
      some (Json.obj
         [("xUsername".data, Json.str d.xAccount.xUsername),
          ("xUserId".data, Json.str d.xAccount.xUserId),
          ("linkedAt".data, Json.str d.xAccount.linkedAt),
          ("linkingProof".data, Json.str d.xAccount.linkingProof)]) from by
    simp +decide [jLookup]]
  simp [asStr, hacc, hval.1]

/-- The sentinel indices in a rendered section: begin at 0, end right after
the newline-wrapped body. -/
theorem xSectionText_markers (d : XLinkingData)
    (h1 : noOccursIn X_SECTION_END_MARKER d.lastUpdated)
    (h2 : noOccursIn X_SECTION_END_MARKER d.xAccount.xUsername)
    (h3 : noOccursIn X_SECTION_END_MARKER d.xAccount.xUserId)
    (h4 : noOccursIn X_SECTION_END_MARKER d.xAccount.linkedAt)
    (h5 : noOccursIn X_SECTION_END_MARKER d.xAccount.linkingProof) :
    strIndexOf (xSectionText d) X_SECTION_BEGIN_MARKER = some 0 ∧
    strIndexOf (xSectionText d) X_SECTION_END_MARKER =
      some ((X_SECTION_BEGIN_MARKER ++ '\n' :: stringifyXData d).length + 1) := by
  have hne : X_SECTION_END_MARKER ≠ [] := by decide
  have hJ := noOccursIn_stringify d h1 h2 h3 h4 h5
  constructor
  · refine strIndexOf_of_isPre _ _ ?_
    unfold xSectionText
    exact isPre_append_self _ _
  · have hshape : xSectionText d =
        ((X_SECTION_BEGIN_MARKER ++ '\n' :: stringifyXData d) ++ ['\n']) ++
          X_SECTION_END_MARKER := by
      unfold xSectionText
      simp
    rw [hshape]
    have hnoP : noOccursIn X_SECTION_END_MARKER
        ((X_SECTION_BEGIN_MARKER ++ '\n' :: stringifyXData d) ++ ['\n']) := by
      have hJn : noOccursIn X_SECTION_END_MARKER (stringifyXData d ++ '\n' :: []) :=
        noOccursIn_append_break _ _ '\n' _ hne (by decide) hJ
          (noOccursIn_append_noHead _ ['\n'] [] hne (by decide)
            (noOccursIn_nil _ hne))
      have hBn : noOccursIn X_SECTION_END_MARKER
          (X_SECTION_BEGIN_MARKER ++ '\n' :: (stringifyXData d ++ ['\n'])) := by
        refine noOccursIn_append_break _ _ '\n' _ hne (by decide) ?_ ?_
        · refine noOccursIn_of_ball _ _ hne ?_
          decide
        · have := noOccursIn_append_noHead X_SECTION_END_MARKER ['\n']
            (stringifyXData d ++ ['\n']) hne (by decide) hJn
          simpa using this
      rw [show ((X_SECTION_BEGIN_MARKER ++ '\n' :: stringifyXData d) ++ ['\n']) =
          X_SECTION_BEGIN_MARKER ++ '\n' :: (stringifyXData d ++ ['\n']) from by simp]
      exact hBn
    have := strIndexOf_append_sentinel X_SECTION_END_MARKER
      (X_SECTION_BEGIN_MARKER ++ '\n' :: stringifyXData d) '\n' hne (by decide) hnoP
    exact this

/-- Evaluation of `parseXLinkingDataFromReadme` once both marker indices and
their order are known. -/
theorem parseXLinkingDataFromReadme_eval (r : Str) (si ei : Nat)
    (hB : strIndexOf r X_SECTION_BEGIN_MARKER = some si)
    (hE : strIndexOf r X_SECTION_END_MARKER = some ei)
    (hlt : si < ei) :
    parseXLinkingDataFromReadme r =
      match jsonParse (jsTrim (substring r (si + X_SECTION_BEGIN_MARKER.length) ei)) with
      | some rawData => xLinkingDataSafeParse rawData
      | none => none := by
  unfold parseXLinkingDataFromReadme
  rw [hB, hE]
  show (if ei ≤ si then none
    else
      match jsonParse (jsTrim (substring r (si + X_SECTION_BEGIN_MARKER.length) ei)) with
      | some rawData => xLinkingDataSafeParse rawData
      | none => none) = _
  rw [if_neg (by omega)]

/-- Parsing a rendered section recovers the data exactly. -/
theorem parse_xSectionText (d : XLinkingData) (hval : validXLinkingData d = true)
    (h1 : noOccursIn X_SECTION_END_MARKER d.lastUpdated)
    (h2 : noOccursIn X_SECTION_END_MARKER d.xAccount.xUsername)
    (h3 : noOccursIn X_SECTION_END_MARKER d.xAccount.xUserId)
    (h4 : noOccursIn X_SECTION_END_MARKER d.xAccount.linkedAt)
    (h5 : noOccursIn X_SECTION_END_MARKER d.xAccount.linkingProof) :
    parseXLinkingDataFromReadme (xSectionText d) = some d := by
  obtain ⟨hB, hE⟩ := xSectionText_markers d h1 h2 h3 h4 h5
  rw [parseXLinkingDataFromReadme_eval _ 0 _ hB hE (by omega)]
  have hsub : substring (xSectionText d) (0 + X_SECTION_BEGIN_MARKER.length)
      ((X_SECTION_BEGIN_MARKER ++ '\n' :: stringifyXData d).length + 1) =
      '\n' :: (stringifyXData d ++ ['\n']) := by
    unfold substring
    rw [show xSectionText d =
        ((X_SECTION_BEGIN_MARKER ++ '\n' :: stringifyXData d) ++ ['\n']) ++
          X_SECTION_END_MARKER from by unfold xSectionText; simp]
    rw [show (X_SECTION_BEGIN_MARKER ++ '\n' :: stringifyXData d).length + 1 =
        ((X_SECTION_BEGIN_MARKER ++ '\n' :: stringifyXData d) ++ ['\n']).length from by
      simp; omega]
    rw [List.take_left]
    rw [show (X_SECTION_BEGIN_MARKER ++ '\n' :: stringifyXData d) ++ ['\n'] =
        X_SECTION_BEGIN_MARKER ++ ('\n' :: (stringifyXData d ++ ['\n'])) from by simp]
    rw [Nat.zero_add, List.drop_left]
  rw [hsub]
  rw [show jsTrim ('\n' :: (stringifyXData d ++ ['\n'])) = stringifyXData d from
    jsTrim_newline_wrap _ (stringify_head d) (stringify_last d)]
  rw [jsonParse_stringify d]
  show xLinkingDataSafeParse (xDataJson d) = some d
  exact safeParse_xDataJson d hval

/-! ## C1: end-to-end scoring example -/

/-- C1: with the reference configuration, the four same-UTC-day "post"
activities (plain; mention; mention+hashtag; mention+hashtag+media, in
creation order) score 5, 7.5, 8.25 and 9.9·0.7 = 6.93 at positions 1–4; the
raw day sum 27.68 exceeds `maxPointsPerDay = 25`, and the returned
`totalScore` is the clamped 25.0. -/
theorem C1_end_to_end_example :
    calculateActivityScore exAct1 DEFAULT_X_SCORING 1 = 5 ∧
    calculateActivityScore exAct2 DEFAULT_X_SCORING 2 = 15 / 2 ∧
    calculateActivityScore exAct3 DEFAULT_X_SCORING 3 = 33 / 4 ∧
    calculateActivityScore exAct4 DEFAULT_X_SCORING 4 = 693 / 100 ∧
    dayScore DEFAULT_X_SCORING [exAct1, exAct2, exAct3, exAct4] = 692 / 25 ∧
    (25 : ℚ) < 692 / 25 ∧
    (calculateXScore [exAct1, exAct2, exAct3, exAct4] DEFAULT_X_SCORING).totalScore = 25 := by
  refine ⟨?_, ?_, ?_, ?_, ?_, by norm_num, ?_⟩ <;>
    simp +decide [calculateXScore, groupByKey, insertGrouped, toDateString, cappedDay,
      sortByCreatedAt, insertByCreatedAt, strLe, dayScore, calculateActivityScore, jsRound,
      List.enum, List.enumFrom, List.foldl_cons, List.foldl_nil,
      exAct1, exAct2, exAct3, exAct4, mkScoredPost, DEFAULT_X_SCORING] <;>
    norm_num [min_def, Int.floor_eq_iff]

/-! ## C3: the SEARCHING pagination loop -/

/-- C3: against an upstream whose first page is non-empty and advertises a
further page (`has_next_page = true`, `next_cursor = "abc"`), the SEARCHING
loop of `fetchAndStoreXActivitiesStep` still stops after one page with one
post: it reads `response.data.cursor`, a property the search response does
not define (the client returns `next_cursor`), so the loop guard is always
false.  This contradicts the claimed (and comment-documented) up-to-5-page
pagination. -/
theorem C3_pagination_stops_after_first_page :
    (exUpstream []).has_next_page = some true ∧
    (exUpstream []).next_cursor = some "abc".data ∧
    (exUpstream []).tweets ≠ [] ∧
    fetchPages exUpstream = ([normalizeXPostFlat exTweet1], 1) := by
  refine ⟨rfl, rfl, by decide, by decide⟩

/-! ## C5: conflict update touches only engagement fields -/

/-- C5: when the post id already exists, `storeXActivity` rewrites only the
engagement counters (`engagementCount`, `likesCount`, `repostsCount`,
`repliesCount`, `viewsCount`) and `lastUpdated`; every other stored field
keeps the previously stored value. -/
theorem C5_conflict_update_frame (post : NormalizedXPost) (row : XActivityRow)
    (user now : Str) (_h : row.id = post.id) :
    (storeXActivity post user now (some row)).id = row.id ∧
    (storeXActivity post user now (some row)).username = row.username ∧
    (storeXActivity post user now (some row)).activityType = row.activityType ∧
    (storeXActivity post user now (some row)).content = row.content ∧
    (storeXActivity post user now (some row)).targetPostId = row.targetPostId ∧
    (storeXActivity post user now (some row)).targetUserId = row.targetUserId ∧
    (storeXActivity post user now (some row)).isAboutSendo = row.isAboutSendo ∧
    (storeXActivity post user now (some row)).mentionsSendoMarket = row.mentionsSendoMarket ∧
    (storeXActivity post user now (some row)).hashtagsUsed = row.hashtagsUsed ∧
    (storeXActivity post user now (some row)).mediaCount = row.mediaCount ∧
    (storeXActivity post user now (some row)).createdAt = row.createdAt ∧
    (storeXActivity post user now (some row)).engagementCount = engagementSum post ∧
    (storeXActivity post user now (some row)).likesCount = post.likesCount ∧
    (storeXActivity post user now (some row)).repostsCount = post.repostsCount ∧
    (storeXActivity post user now (some row)).repliesCount = post.repliesCount ∧
    (storeXActivity post user now (some row)).viewsCount = post.viewsCount ∧
    (storeXActivity post user now (some row)).lastUpdated = now := by
  simp [storeXActivity]

/-- C5 witness: the frame property at a concrete stored row and re-ingested
post with the same id. -/
theorem C5_conflict_update_frame_witness :
    exStoredRow.id = exNormPost.id ∧
    ((storeXActivity exNormPost "alice".data exNow (some exStoredRow)).content =
        exStoredRow.content ∧
      (storeXActivity exNormPost "alice".data exNow (some exStoredRow)).activityType =
        exStoredRow.activityType ∧
      (storeXActivity exNormPost "alice".data exNow (some exStoredRow)).likesCount =
        exNormPost.likesCount) :=
  ⟨rfl,
    (C5_conflict_update_frame exNormPost exStoredRow "alice".data exNow rfl).2.2.2.1,
    (C5_conflict_update_frame exNormPost exStoredRow "alice".data exNow rfl).2.2.1,
    (C5_conflict_update_frame exNormPost exStoredRow "alice".data exNow rfl).2.2.2.2.2.2.2.2.2.2.2.2.1⟩

/-! ## C10: the engagement-count invariant -/

/-- C10: every row written by `storeXActivity` — fresh insert or conflict
update — carries `engagementCount = likes + reposts + replies + quotes` of
the incoming normalized post; `viewsCount` and `bookmarksCount` never enter
the sum. -/
theorem C10_engagement_sum_invariant (post : NormalizedXPost) (user now : Str)
    (existing : Option XActivityRow) (l rp : Nat)
    (hl : post.likesCount = some l) (hr : post.repostsCount = some rp) :
    (storeXActivity post user now existing).engagementCount =
      some (l + rp + post.repliesCount + post.quotesCount) := by
  cases existing <;> simp [storeXActivity, engagementSum, hl, hr]

/-- C10 witness: the invariant at a concrete post (7+3+2+1 = 13), on insert
and on update. -/
theorem C10_engagement_sum_invariant_witness :
    exNormPost.likesCount = some 7 ∧ exNormPost.repostsCount = some 3 ∧
    (storeXActivity exNormPost "alice".data exNow none).engagementCount = some 13 ∧
    (storeXActivity exNormPost "alice".data exNow (some exStoredRow)).engagementCount = some 13 :=
  ⟨rfl, rfl,
    by simpa using C10_engagement_sum_invariant exNormPost "alice".data exNow none 7 3 rfl rfl,
    by simpa using
      C10_engagement_sum_invariant exNormPost "alice".data exNow (some exStoredRow) 7 3 rfl rfl⟩

/-! ## C7: normalizer defaults -/

/-- C7 counterexample: a flat raw post with `likeCount` absent normalizes to
an `undefined` `likesCount`, not to zero — the missing-`likes` default the
claim asserts does not exist (there is no `|| 0` on `likeCount` or
`retweetCount` in either normalizer). -/
theorem C7_counterexample_likes_not_defaulted :
    exFlatNoLikes.likeCount = none ∧
    (normalizeXPostFlat exFlatNoLikes).likesCount ≠ some 0 ∧
    (normalizeXPostFlat exFlatNoLikes).likesCount = none := by
  refine ⟨rfl, by decide, rfl⟩

/-- C7 amended: both normalizers default absent replies, quotes, views,
bookmarks and media counts to zero, and the legacy normalizer defaults an
absent author block to the "unknown" sentinel strings; absent `likes` and
`reposts`, however, are passed through as `undefined` rather than being
defaulted to zero. -/
theorem C7_amended_defaults :
    (∀ p : XPostFlat, p.replyCount = none → (normalizeXPostFlat p).repliesCount = 0) ∧
    (∀ p : XPostFlat, p.quoteCount = none → (normalizeXPostFlat p).quotesCount = 0) ∧
    (∀ p : XPostFlat, p.viewCount = none → (normalizeXPostFlat p).viewsCount = some 0) ∧
    (∀ p : XPostFlat, p.bookmarkCount = none → (normalizeXPostFlat p).bookmarksCount = 0) ∧
    (∀ p : XPostFlat, p.entities.media = none → (normalizeXPostFlat p).mediaCount = 0) ∧
    (∀ p : XPostFlat, (normalizeXPostFlat p).likesCount = p.likeCount) ∧
    (∀ p : XPostFlat, (normalizeXPostFlat p).repostsCount = p.retweetCount) ∧
    (∀ p : XPostLegacy, p.legacy.reply_count = none → (normalizeXPostLegacy p).repliesCount = 0) ∧
    (∀ p : XPostLegacy, p.legacy.quote_count = none → (normalizeXPostLegacy p).quotesCount = 0) ∧
    (∀ p : XPostLegacy, p.views = none → (normalizeXPostLegacy p).viewsCount = some 0) ∧
    (∀ p : XPostLegacy, p.legacy.bookmark_count = none →
      (normalizeXPostLegacy p).bookmarksCount = 0) ∧
    (∀ p : XPostLegacy, p.legacy.entities.media = none →
      (normalizeXPostLegacy p).mediaCount = 0) ∧
    (∀ p : XPostLegacy, (normalizeXPostLegacy p).likesCount = p.legacy.favorite_count) ∧
    (∀ p : XPostLegacy, (normalizeXPostLegacy p).repostsCount = p.legacy.retweet_count) ∧
    (∀ p : XPostLegacy, p.core = none →
      (normalizeXPostLegacy p).authorId = "unknown_author".data ∧
      (normalizeXPostLegacy p).authorUsername = "unknown_username".data ∧
      (normalizeXPostLegacy p).authorName = "unknown_username".data) := by
  refine ⟨?_, ?_, ?_, ?_, ?_, ?_, ?_, ?_, ?_, ?_, ?_, ?_, ?_, ?_, ?_⟩ <;>
    intro p <;>
    first
      | (intro hp; simp [normalizeXPostFlat, normalizeXPostLegacy, orZero, hp])
      | simp [normalizeXPostFlat, normalizeXPostLegacy]

/-- C7 amended witness: the defaults at the concrete all-absent fixtures. -/
theorem C7_amended_defaults_witness :
    exFlatNoLikes.replyCount = none ∧
    (normalizeXPostFlat exFlatNoLikes).repliesCount = 0 ∧
    exLegacyNoCore.core = none ∧
    (normalizeXPostLegacy exLegacyNoCore).authorId = "unknown_author".data :=
  ⟨rfl, C7_amended_defaults.1 exFlatNoLikes rfl, rfl,
    (C7_amended_defaults.2.2.2.2.2.2.2.2.2.2.2.2.2.2 exLegacyNoCore rfl).1⟩

/-! ## C9: positional monotonicity of the diminishing-returns penalty -/

/-- The score factors as the pre-penalty base times the penalty factor. -/
theorem calculateActivityScore_factored (a : XActivityRow) (cfg : XScoringConfig)
    (pos : Nat) :
    calculateActivityScore a cfg pos =
      activityBaseScore a cfg *
        (if (pos : ℤ) > cfg.daily.diminishingReturnsThreshold then
          cfg.daily.diminishingReturnsPenalty ^
            ((pos : ℤ) - cfg.daily.diminishingReturnsThreshold).toNat
        else 1) := by
  unfold calculateActivityScore activityBaseScore
  split_ifs <;> simp

/-- The pre-penalty base is non-negative for a configuration with
non-negative base points and post multipliers. -/
theorem activityBaseScore_nonneg (a : XActivityRow) (cfg : XScoringConfig)
    (hb1 : 0 ≤ cfg.post.base) (hb2 : 0 ≤ cfg.quote.base) (hb3 : 0 ≤ cfg.reply.base)
    (hb4 : 0 ≤ cfg.repost.base) (hm1 : 0 ≤ cfg.post.mentionsSendoMarket)
    (hm2 : 0 ≤ cfg.post.usesHashtag) (hm3 : 0 ≤ cfg.post.hasMedia) :
    0 ≤ activityBaseScore a cfg := by
  unfold activityBaseScore
  split_ifs <;> positivity

/-- C9 counterexample: with the reference daily controls but a negative post
base (`post.base = -5`, a configuration whose penalty 0.7 is a decay factor
below one), the contribution of the plain post strictly increases from
position 4 to position 5 (−3.5 to −2.45), so the claim's unconditional
monotonicity fails. -/
theorem C9_counterexample_negative_base :
    calculateActivityScore exAct1 negBaseCfg 4 < calculateActivityScore exAct1 negBaseCfg 5 := by
  simp +decide [calculateActivityScore, exAct1, mkScoredPost, negBaseCfg, DEFAULT_X_SCORING]
  norm_num

/-- C9 amended: for a fixed activity and a configuration whose diminishing
penalty is a decay factor (`0 ≤ penalty < 1`) and whose base points and post
multipliers are non-negative, the contribution at a position beyond the
threshold never increases as the position strictly increases. -/
theorem C9_position_monotone (a : XActivityRow) (cfg : XScoringConfig) (p q : Nat)
    (hpen0 : 0 ≤ cfg.daily.diminishingReturnsPenalty)
    (hpen1 : cfg.daily.diminishingReturnsPenalty < 1)
    (hb1 : 0 ≤ cfg.post.base) (hb2 : 0 ≤ cfg.quote.base) (hb3 : 0 ≤ cfg.reply.base)
    (hb4 : 0 ≤ cfg.repost.base) (hm1 : 0 ≤ cfg.post.mentionsSendoMarket)
    (hm2 : 0 ≤ cfg.post.usesHashtag) (hm3 : 0 ≤ cfg.post.hasMedia)
    (ht : cfg.daily.diminishingReturnsThreshold < (p : ℤ)) (hpq : p ≤ q) :
    calculateActivityScore a cfg q ≤ calculateActivityScore a cfg p := by
  rw [calculateActivityScore_factored, calculateActivityScore_factored]
  have htq : cfg.daily.diminishingReturnsThreshold < (q : ℤ) := by
    exact lt_of_lt_of_le ht (by exact_mod_cast hpq)
  rw [if_pos ht, if_pos htq]
  refine mul_le_mul_of_nonneg_left ?_
    (activityBaseScore_nonneg a cfg hb1 hb2 hb3 hb4 hm1 hm2 hm3)
  exact pow_le_pow_of_le_one hpen0 hpen1.le
    (Int.toNat_le_toNat (by omega))

/-- C9 amended witness: the reference configuration, positions 4 and 5. -/
theorem C9_position_monotone_witness :
    (0 : ℚ) ≤ DEFAULT_X_SCORING.daily.diminishingReturnsPenalty ∧
    DEFAULT_X_SCORING.daily.diminishingReturnsPenalty < 1 ∧
    DEFAULT_X_SCORING.daily.diminishingReturnsThreshold < (4 : ℤ) ∧
    calculateActivityScore exAct1 DEFAULT_X_SCORING 5 ≤
      calculateActivityScore exAct1 DEFAULT_X_SCORING 4 :=
  ⟨by norm_num [DEFAULT_X_SCORING], by norm_num [DEFAULT_X_SCORING],
    by norm_num [DEFAULT_X_SCORING],
    C9_position_monotone exAct1 DEFAULT_X_SCORING 4 5
      (by norm_num [DEFAULT_X_SCORING]) (by norm_num [DEFAULT_X_SCORING])
      (by norm_num [DEFAULT_X_SCORING]) (by norm_num [DEFAULT_X_SCORING])
      (by norm_num [DEFAULT_X_SCORING]) (by norm_num [DEFAULT_X_SCORING])
      (by norm_num [DEFAULT_X_SCORING]) (by norm_num [DEFAULT_X_SCORING])
      (by norm_num [DEFAULT_X_SCORING]) (by norm_num [DEFAULT_X_SCORING])
      (by norm_num)⟩

/-! ## C6: metrics versus the truncated, capped activity set -/

/-- Generic counting lemma for the per-day metric fold. -/
theorem foldl_updateMetrics_count (f : XScoreMetrics → Nat) (p : XActivityRow → Bool)
    (hstep : ∀ m a, f (updateMetrics m a) = f m + if p a then 1 else 0) :
    ∀ (l : List XActivityRow) (m : XScoreMetrics),
      f (l.foldl updateMetrics m) = f m + l.countP p := by
  intro l
  induction l with
  | nil => intro m; simp
  | cons a l ih =>
    intro m
    rw [List.foldl_cons, ih, hstep, List.countP_cons]
    cases hpa : p a <;> simp [hpa] <;> omega

/-- Counting lemma for the fold over all day groups. -/
theorem groupsFold_metrics_count (f : XScoreMetrics → Nat) (p : XActivityRow → Bool)
    (hstep : ∀ m a, f (updateMetrics m a) = f m + if p a then 1 else 0)
    (cfg : XScoringConfig) :
    ∀ (gs : List (Str × List XActivityRow)) (m : XScoreMetrics),
      f (gs.foldl (fun m g => (cappedDay cfg g.2).foldl updateMetrics m) m) =
        f m + ((gs.map (fun g => cappedDay cfg g.2)).flatten).countP p := by
  intro gs
  induction gs with
  | nil => intro m; simp
  | cons g gs ih =>
    intro m
    rw [List.foldl_cons, ih, foldl_updateMetrics_count f p hstep]
    simp [List.countP_append]
    omega

/-- C6 counterexample: sixteen same-day plain posts under the reference
configuration (`daily.maxPosts = 15`): the sixteenth activity is dropped by
the truncation, yet `metrics.posts.total` still counts it (16), while the
per-type counter `original` sees only the capped 15 — so the metrics are not
all computed over the truncated, capped set. -/
theorem C6_counterexample_total_counts_dropped :
    c6Activities.length = 16 ∧
    (calculateXScore c6Activities DEFAULT_X_SCORING).metrics.postsTotal = 16 ∧
    (calculateXScore c6Activities DEFAULT_X_SCORING).metrics.postsOriginal = 15 := by
  refine ⟨by decide, ?_, ?_⟩ <;>
    simp +decide [calculateXScore, groupByKey, insertGrouped, toDateString, cappedDay,
      sortByCreatedAt, insertByCreatedAt, strLe, updateMetrics,
      List.foldl_cons, List.foldl_nil,
      c6Activities, mkScoredPost, DEFAULT_X_SCORING, List.range, List.range.loop]

/-- C6 amended: every returned metric except `posts.total` (the per-type
counts and the mention/hashtag/media counts) is computed over exactly the
truncated, capped per-day activity set that contributes to `totalScore`;
`posts.total`, by contrast, is the length of the full input list and also
counts activities dropped by the daily `maxPosts` truncation. -/
theorem C6_amended_metrics_sets (acts : List XActivityRow) (cfg : XScoringConfig) :
    (calculateXScore acts cfg).metrics.postsTotal = acts.length ∧
    (calculateXScore acts cfg).metrics.postsOriginal = (cappedActivities cfg acts).countP isPostType ∧
    (calculateXScore acts cfg).metrics.postsQuotes = (cappedActivities cfg acts).countP isQuoteType ∧
    (calculateXScore acts cfg).metrics.postsReplies = (cappedActivities cfg acts).countP isReplyType ∧
    (calculateXScore acts cfg).metrics.postsReposts = (cappedActivities cfg acts).countP isRepostType ∧
    (calculateXScore acts cfg).metrics.totalMentions = (cappedActivities cfg acts).countP hasMention ∧
    (calculateXScore acts cfg).metrics.withHashtag = (cappedActivities cfg acts).countP hasSendoHashtag ∧
    (calculateXScore acts cfg).metrics.withMedia = (cappedActivities cfg acts).countP hasMediaAttached := by
  unfold calculateXScore cappedActivities
  simp only []
  refine ⟨?_, ?_, ?_, ?_, ?_, ?_, ?_, ?_⟩
  · rw [groupsFold_metrics_count (f := XScoreMetrics.postsTotal) (p := fun _ => false)
      (by intro m a; simp [updateMetrics])]
    have hz : ∀ L : List XActivityRow, L.countP (fun _ => false) = 0 := by
      intro L
      induction L with
      | nil => rfl
      | cons a t ih => rw [List.countP_cons, ih]; simp
    rw [hz]
    simp
  · rw [groupsFold_metrics_count (f := XScoreMetrics.postsOriginal) (p := isPostType)
      (by intro m a; by_cases h : a.activityType = "post".data <;> simp [updateMetrics, isPostType, h])]
    simp
  · rw [groupsFold_metrics_count (f := XScoreMetrics.postsQuotes) (p := isQuoteType)
      (by intro m a; by_cases h : a.activityType = "quote".data <;> simp [updateMetrics, isQuoteType, h])]
    simp
  · rw [groupsFold_metrics_count (f := XScoreMetrics.postsReplies) (p := isReplyType)
      (by intro m a; by_cases h : a.activityType = "reply".data <;> simp [updateMetrics, isReplyType, h])]
    simp
  · rw [groupsFold_metrics_count (f := XScoreMetrics.postsReposts) (p := isRepostType)
      (by intro m a; by_cases h : a.activityType = "repost".data <;> simp [updateMetrics, isRepostType, h])]
    simp
  · rw [groupsFold_metrics_count (f := XScoreMetrics.totalMentions) (p := hasMention)
      (by intro m a; by_cases h : a.mentionsSendoMarket <;> simp [updateMetrics, hasMention, h])]
    simp
  · rw [groupsFold_metrics_count (f := XScoreMetrics.withHashtag) (p := hasSendoHashtag)
      (by intro m a; by_cases h : "sendo".data ∈ a.hashtagsUsed <;> simp [updateMetrics, hasSendoHashtag, h])]
    simp
  · rw [groupsFold_metrics_count (f := XScoreMetrics.withMedia) (p := hasMediaAttached)
      (by intro m a; by_cases h : a.mediaCount > 0 <;> simp [updateMetrics, hasMediaAttached, h])]
    simp

/-! ## C2 and C8: generating and re-parsing the README section -/

/-- With a valid claim and no sentinel pair in the current text,
`generateUpdatedReadmeWithXInfo` takes the append branch. -/
theorem generate_append_branch (current : Str) (c : LinkedXAccount) (now : Str)
    (hc : validLinkedXAccount c = true) (hvd : validXLinkingData ⟨now, c⟩ = true)
    (hnm : hasMarkerPair current = false) :
    generateUpdatedReadmeWithXInfo current c now =
      some (appendXSection current (xSectionText ⟨now, c⟩), ⟨now, c⟩) := by
  unfold hasMarkerPair at hnm
  unfold generateUpdatedReadmeWithXInfo
  simp only [hc, hvd, not_true, if_false]
  rcases hB : strIndexOf current X_SECTION_BEGIN_MARKER with _ | si
  · rfl
  · rcases hE : strIndexOf current X_SECTION_END_MARKER with _ | ei
    · rfl
    · rw [hB, hE] at hnm
      simp at hnm
      exact if_neg (by omega)

/-- Appending to the empty readme yields the bare section (empty trim, empty
separator). -/
theorem appendXSection_empty (x : Str) : appendXSection [] x = x := by
  simp [appendXSection, jsTrim]

set_option maxRecDepth 100000 in
/-- C2 counterexample: the schema-valid claim `exBadClaim`, whose
`linkingProof` contains the end sentinel `X-LINKING-END -->` verbatim,
passes validation and is rendered into the README, but re-parsing finds the
first end-sentinel occurrence inside the JSON body, truncates the section
there, and `JSON.parse` fails, so the round trip returns `null` instead of
the original claim. -/
theorem C2_counterexample_sentinel_in_field :
    validLinkedXAccount exBadClaim = true ∧
    generateUpdatedReadmeWithXInfo [] exBadClaim exNow =
      some (xSectionText ⟨exNow, exBadClaim⟩, ⟨exNow, exBadClaim⟩) ∧
    parseXLinkingDataFromReadme (xSectionText ⟨exNow, exBadClaim⟩) = none :=
  ⟨by decide, by decide, by decide⟩

/-- C2 (amended): for every claim that passes the schema (non-empty
`xUsername`, `xUserId`, `linkingProof`; ISO-8601 `linkedAt`), every valid
timestamp, and no occurrence of the end sentinel in the timestamp or in any
claim field, generating the README from the empty string produces exactly the
rendered section, and re-parsing it recovers the timestamp and the claim
field-for-field. -/
theorem C2_roundtrip_on_empty (c : LinkedXAccount) (now : Str)
    (hc : validLinkedXAccount c = true) (hnow : zodDatetime now = true)
    (h1 : noOccursIn X_SECTION_END_MARKER now)
    (h2 : noOccursIn X_SECTION_END_MARKER c.xUsername)
    (h3 : noOccursIn X_SECTION_END_MARKER c.xUserId)
    (h4 : noOccursIn X_SECTION_END_MARKER c.linkedAt)
    (h5 : noOccursIn X_SECTION_END_MARKER c.linkingProof) :
    generateUpdatedReadmeWithXInfo [] c now =
      some (xSectionText ⟨now, c⟩, ⟨now, c⟩) ∧
    parseXLinkingDataFromReadme (xSectionText ⟨now, c⟩) = some ⟨now, c⟩ := by
  have hvd : validXLinkingData ⟨now, c⟩ = true := by
    simp [validXLinkingData, hnow, hc]
  constructor
  · rw [generate_append_branch [] c now hc hvd (by decide), appendXSection_empty]
  · exact parse_xSectionText ⟨now, c⟩ hvd h1 h2 h3 h4 h5

/-- Witness for the amended C2 round trip at the concrete claim `exClaim`
and timestamp `exNow`. -/
theorem C2_roundtrip_on_empty_witness :
    validLinkedXAccount exClaim = true ∧ zodDatetime exNow = true ∧
    (generateUpdatedReadmeWithXInfo [] exClaim exNow =
        some (xSectionText ⟨exNow, exClaim⟩, ⟨exNow, exClaim⟩) ∧
      parseXLinkingDataFromReadme (xSectionText ⟨exNow, exClaim⟩) =
        some ⟨exNow, exClaim⟩) :=
  ⟨by decide, by decide,
    C2_roundtrip_on_empty exClaim exNow (by decide) (by decide)
      (noOccursIn_of_ball _ _ (by decide) (by decide))
      (noOccursIn_of_ball _ _ (by decide) (by decide))
      (noOccursIn_of_ball _ _ (by decide) (by decide))
      (noOccursIn_of_ball _ _ (by decide) (by decide))
      (noOccursIn_of_ball _ _ (by decide) (by decide))⟩

set_option maxRecDepth 100000 in
/-- C8 counterexample: on the marker-free readme `" a"` the append branch
first runs `currentReadme.trim()`, so the leading space is dropped: the
output begins with `"a\n\n"`, and the original text `" a"` is not a prefix
of the output — its bytes are not left unchanged. -/
theorem C8_counterexample_current_trimmed :
    hasMarkerPair " a".data = false ∧
    validLinkedXAccount exClaim = true ∧
    generateUpdatedReadmeWithXInfo " a".data exClaim exNow =
      some ("a".data ++ "\n\n".data ++ xSectionText ⟨exNow, exClaim⟩,
        ⟨exNow, exClaim⟩) ∧
    isPre " a".data
      ("a".data ++ "\n\n".data ++ xSectionText ⟨exNow, exClaim⟩) = false :=
  ⟨by decide, by decide, by decide, by decide⟩

/-- C8 (amended): for every current README without a sentinel pair and every
valid claim and timestamp, the function appends the rendered section to the
TRIMMED current text, with separator `"\n\n"` iff the trimmed text is
non-empty and the original text does not end in a newline, `"\n"` iff the
trimmed text is non-empty and the original text ends in a newline, and no
separator iff the trimmed text is empty. -/
theorem C8_append_with_separator (current : Str) (c : LinkedXAccount) (now : Str)
    (hc : validLinkedXAccount c = true) (hnow : zodDatetime now = true)
    (hnm : hasMarkerPair current = false) :
    ∃ sep, generateUpdatedReadmeWithXInfo current c now =
        some (jsTrim current ++ sep ++ xSectionText ⟨now, c⟩, ⟨now, c⟩) ∧
      (sep = "\n\n".data ↔ jsTrim current ≠ [] ∧ endsWithNewline current = false) ∧
      (sep = "\n".data ↔ jsTrim current ≠ [] ∧ endsWithNewline current = true) ∧
      (sep = ([] : Str) ↔ jsTrim current = []) := by
  have hvd : validXLinkingData ⟨now, c⟩ = true := by
    simp [validXLinkingData, hnow, hc]
  refine ⟨if jsTrim current ≠ [] ∧ ¬ endsWithNewline current then "\n\n".data
      else if jsTrim current ≠ [] then "\n".data else [], ?_, ?_, ?_, ?_⟩
  · rw [generate_append_branch current c now hc hvd hnm]
    rfl
  · by_cases ht : jsTrim current = [] <;> by_cases he : endsWithNewline current = true <;>
      simp +decide [ht, he]
  · by_cases ht : jsTrim current = [] <;> by_cases he : endsWithNewline current = true <;>
      simp +decide [ht, he]
  · by_cases ht : jsTrim current = [] <;> by_cases he : endsWithNewline current = true <;>
      simp +decide [ht, he]

/-- Witness for the amended C8 append at the readme `"hello"` (non-empty, no
trailing newline, no markers). -/
theorem C8_append_with_separator_witness :
    validLinkedXAccount exClaim = true ∧ zodDatetime exNow = true ∧
    hasMarkerPair "hello".data = false ∧
    (∃ sep, generateUpdatedReadmeWithXInfo "hello".data exClaim exNow =
        some (jsTrim "hello".data ++ sep ++ xSectionText ⟨exNow, exClaim⟩,
          ⟨exNow, exClaim⟩) ∧
      (sep = "\n\n".data ↔
        jsTrim "hello".data ≠ [] ∧ endsWithNewline "hello".data = false) ∧
      (sep = "\n".data ↔
        jsTrim "hello".data ≠ [] ∧ endsWithNewline "hello".data = true) ∧
      (sep = ([] : Str) ↔ jsTrim "hello".data = [])) :=
  ⟨by decide, by decide, by decide,
    C8_append_with_separator "hello".data exClaim exNow (by decide) (by decide)
      (by decide)⟩

/-! ## C4: the batched profile scan -/

/-- With positive concurrency and enough fuel, the batched scan loop is the
plain fold of the per-result bookkeeping over all usernames. -/
theorem scanGo_eq_foldl (env : ScanEnv) (conc : Nat) (hc : 1 ≤ conc) :
    ∀ (fuel : Nat) (us : List Str) (acc : ProfileScanResult), us.length ≤ fuel →
      scanGo env conc fuel us acc = us.foldl (processScanResult env) acc := by
  intro fuel
  induction fuel with
  | zero =>
    intro us acc h
    have hnil : us = [] := List.eq_nil_of_length_eq_zero (Nat.le_zero.mp h)
    subst hnil
    rfl
  | succ n ih =>
    intro us acc h
    cases us with
    | nil => rfl
    | cons a us' =>
      show scanGo env conc n ((a :: us').drop conc)
        (((a :: us').take conc).foldl (processScanResult env) acc) = _
      rw [ih _ _ (by simp at h ⊢; omega)]
      conv_rhs => rw [← List.take_append_drop conc (a :: us')]
      rw [List.foldl_append]

/-- Closed form of the scan bookkeeping fold: appended linked accounts,
one scanned per username, one failure per rejected promise, one error entry
per rejected promise. -/
theorem foldl_processScanResult (env : ScanEnv) (us : List Str) :
    ∀ acc : ProfileScanResult,
      us.foldl (processScanResult env) acc =
        { linkedAccounts := acc.linkedAccounts ++
            us.filterMap (fun u => settledValue (scanProfileForXAccount env u)),
          scannedCount := acc.scannedCount + us.length,
          failedCount := acc.failedCount + us.countP (isScanRejected env),
          errors := acc.errors ++ us.filterMap (rejectionEntry env) } := by
  induction us with
  | nil => intro acc; simp
  | cons u us ih =>
    intro acc
    rw [List.foldl_cons, ih]
    rcases hs : scanProfileForXAccount env u with v | msg
    · rcases v with _ | w <;>
        simp [processScanResult, hs, settledValue, isScanRejected, rejectionEntry,
          List.filterMap_cons, List.countP_cons] <;> omega
    · simp [processScanResult, hs, settledValue, isScanRejected, rejectionEntry,
        List.filterMap_cons, List.countP_cons] <;> omega

/-- A fulfilled scan promise is not counted as rejected. -/
theorem isScanRejected_false_of_fulfilled (env : ScanEnv) (u : Str)
    (v : Option LinkedXAccountFromGitHub)
    (h : scanProfileForXAccount env u = .fulfilled v) :
    isScanRejected env u = false := by
  simp [isScanRejected, h]

/-- A non-rejected username contributes no error entry. -/
theorem rejectionEntry_none_of_not_rejected (env : ScanEnv) (u : Str)
    (h : isScanRejected env u = false) : rejectionEntry env u = none := by
  unfold rejectionEntry
  rcases hs : scanProfileForXAccount env u with v | msg
  · rfl
  · simp [isScanRejected, hs] at h

/-- A rejected username contributes exactly its error entry. -/
theorem rejectionEntry_of_rejected (env : ScanEnv) (u : Str) (msg : Str)
    (h : scanProfileForXAccount env u = .rejected msg) :
    rejectionEntry env u =
      some (u, if msg = [] then "Unknown error".data else msg) := by
  simp [rejectionEntry, h]

/-- The example README (a rendered section for `exClaim`) parses back to its
data. -/
theorem parse_exReadme : parseXLinkingDataFromReadme exReadme = some ⟨exNow, exClaim⟩ := by
  unfold exReadme
  exact parse_xSectionText ⟨exNow, exClaim⟩ (by decide)
    (noOccursIn_of_ball _ _ (by decide) (by decide))
    (noOccursIn_of_ball _ _ (by decide) (by decide))
    (noOccursIn_of_ball _ _ (by decide) (by decide))
    (noOccursIn_of_ball _ _ (by decide) (by decide))
    (noOccursIn_of_ball _ _ (by decide) (by decide))

/-- In the throwing environment, the scan of `"alice"` (whose fetch throws)
settles fulfilled with `null`: the throw is swallowed inside
`fetchProfileReadme`. -/
theorem scanThrows_alice :
    scanProfileForXAccount exScanEnvThrows "alice".data = .fulfilled none := by
  rfl

/-- In the throwing environment, the scan of `"bob"` finds the linked
account. -/
theorem scanThrows_bob :
    scanProfileForXAccount exScanEnvThrows "bob".data = .fulfilled (some
      ⟨"bob".data, exClaim.xUsername, exClaim.xUserId, exClaim.linkedAt,
        exClaim.linkingProof, exNow⟩) := by
  unfold scanProfileForXAccount
  simp only [show fetchProfileReadme (exScanEnvThrows.fetch "bob".data) = some exReadme from
    rfl, parse_exReadme]
  rfl

/-- In the rejecting environment, the scan of `"bob"` finds the linked
account. -/
theorem scanRejects_bob :
    scanProfileForXAccount exScanEnvRejects "bob".data = .fulfilled (some
      ⟨"bob".data, exClaim.xUsername, exClaim.xUserId, exClaim.linkedAt,
        exClaim.linkingProof, exNow⟩) := by
  unfold scanProfileForXAccount
  simp only [show fetchProfileReadme (exScanEnvRejects.fetch "bob".data) = some exReadme from
    rfl, parse_exReadme]
  rfl

/-- In the rejecting environment, the scan of `"carol"` rejects with the
verifier's message. -/
theorem scanRejects_carol :
    scanProfileForXAccount exScanEnvRejects "carol".data =
      .rejected "jwt broke".data := by
  unfold scanProfileForXAccount
  simp only [show fetchProfileReadme (exScanEnvRejects.fetch "carol".data) = some exReadme from
    rfl, parse_exReadme]
  rfl

/-- In the rejecting environment, the scan of `"dave"` (no profile README)
settles fulfilled with `null`. -/
theorem scanRejects_dave :
    scanProfileForXAccount exScanEnvRejects "dave".data = .fulfilled none := by
  rfl

/-- C4 counterexample: in a run over `["alice", "bob"]` where the fetch for
`"alice"` always throws and `"bob"` has a valid linked claim,
`scanProfilesForXAccounts` returns `scannedCount = 2` but `failedCount = 0`
and an empty `errors` list: the throw is caught inside `fetchProfileReadme`
and converted to `null`, so it is never recorded as a failure, contradicting
the claimed `failedCount = 1` and error entry. -/
theorem C4_counterexample_fetch_throw_swallowed :
    exScanEnvThrows.fetch "alice".data = .fetchThrows "boom".data ∧
    (scanProfilesForXAccounts exScanEnvThrows ["alice".data, "bob".data]).scannedCount = 2 ∧
    (scanProfilesForXAccounts exScanEnvThrows ["alice".data, "bob".data]).failedCount = 0 ∧
    (scanProfilesForXAccounts exScanEnvThrows ["alice".data, "bob".data]).errors = [] ∧
    (scanProfilesForXAccounts exScanEnvThrows ["alice".data, "bob".data]).linkedAccounts =
      [⟨"bob".data, exClaim.xUsername, exClaim.xUserId, exClaim.linkedAt,
        exClaim.linkingProof, exNow⟩] := by
  have hA1 : isScanRejected exScanEnvThrows "alice".data = false :=
    isScanRejected_false_of_fulfilled _ _ _ scanThrows_alice
  have hB1 : isScanRejected exScanEnvThrows "bob".data = false :=
    isScanRejected_false_of_fulfilled _ _ _ scanThrows_bob
  have hA2 : rejectionEntry exScanEnvThrows "alice".data = none :=
    rejectionEntry_none_of_not_rejected _ _ hA1
  have hB2 : rejectionEntry exScanEnvThrows "bob".data = none :=
    rejectionEntry_none_of_not_rejected _ _ hB1
  have hA3 : settledValue (scanProfileForXAccount exScanEnvThrows "alice".data) =
      none := by rw [scanThrows_alice]; rfl
  have hB3 : settledValue (scanProfileForXAccount exScanEnvThrows "bob".data) =
      some ⟨"bob".data, exClaim.xUsername, exClaim.xUserId, exClaim.linkedAt,
        exClaim.linkingProof, exNow⟩ := by rw [scanThrows_bob]; rfl
  refine ⟨rfl, ?_, ?_, ?_, ?_⟩ <;>
  · unfold scanProfilesForXAccounts
    rw [scanGo_eq_foldl exScanEnvThrows 5 (by omega) _ _ _ le_rfl,
      foldl_processScanResult]
    simp only [List.filterMap_cons, List.filterMap_nil, List.countP_cons,
      List.countP_nil, List.length_cons, List.length_nil,
      hA1, hB1, hA2, hB2, hA3, hB3]
    all_goals simp

/-- C4 (amended): failures are counted per REJECTED scan promise (in this
code, only the JWT-verification step can reject; fetch errors are swallowed
to `null`): for every environment and every username list in which exactly
the middle username's scan rejects, the result counts every username as
scanned, one failure, exactly that username's error entry, and the linked
accounts of all fulfilled scans in order — the rejection aborts nothing. -/
theorem C4_single_rejection_accounting (env : ScanEnv) (pre post : List Str)
    (u : Str) (conc : Nat) (hc : 1 ≤ conc)
    (hpre : ∀ v ∈ pre, isScanRejected env v = false)
    (hpost : ∀ v ∈ post, isScanRejected env v = false)
    (hu : isScanRejected env u = true) :
    (scanProfilesForXAccounts env (pre ++ u :: post) conc).scannedCount =
      pre.length + 1 + post.length ∧
    (scanProfilesForXAccounts env (pre ++ u :: post) conc).failedCount = 1 ∧
    (∃ msg, (scanProfilesForXAccounts env (pre ++ u :: post) conc).errors =
      [(u, msg)]) ∧
    (scanProfilesForXAccounts env (pre ++ u :: post) conc).linkedAccounts =
      (pre ++ u :: post).filterMap
        (fun v => settledValue (scanProfileForXAccount env v)) := by
  have hpre0 : pre.countP (isScanRejected env) = 0 :=
    List.countP_eq_zero.mpr (by intro v hv; simp [hpre v hv])
  have hpost0 : post.countP (isScanRejected env) = 0 :=
    List.countP_eq_zero.mpr (by intro v hv; simp [hpost v hv])
  have hpreN : pre.filterMap (rejectionEntry env) = [] :=
    List.filterMap_eq_nil_iff.mpr
      (fun v hv => rejectionEntry_none_of_not_rejected env v (hpre v hv))
  have hpostN : post.filterMap (rejectionEntry env) = [] :=
    List.filterMap_eq_nil_iff.mpr
      (fun v hv => rejectionEntry_none_of_not_rejected env v (hpost v hv))
  obtain ⟨msg, hmsg⟩ : ∃ msg, scanProfileForXAccount env u = .rejected msg := by
    rcases hs : scanProfileForXAccount env u with v | m
    · simp [isScanRejected, hs] at hu
    · exact ⟨m, rfl⟩
  unfold scanProfilesForXAccounts
  rw [scanGo_eq_foldl env conc hc _ _ _ le_rfl, foldl_processScanResult]
  refine ⟨by simp; omega, ?_, ?_, by simp⟩
  · simp [List.countP_append, List.countP_cons, hpre0, hpost0, hu]
  · refine ⟨if msg = [] then "Unknown error".data else msg, ?_⟩
    simp [List.filterMap_append, List.filterMap_cons, hpreN, hpostN,
      rejectionEntry_of_rejected env u msg hmsg]

/-- Witness for the amended C4 accounting: `["bob", "carol", "dave"]` in the
rejecting environment, where only `"carol"`'s verification rejects. -/
theorem C4_single_rejection_accounting_witness :
    1 ≤ 5 ∧ isScanRejected exScanEnvRejects "carol".data = true ∧
    ((scanProfilesForXAccounts exScanEnvRejects
        (["bob".data] ++ "carol".data :: ["dave".data]) 5).scannedCount = 1 + 1 + 1 ∧
      (scanProfilesForXAccounts exScanEnvRejects
        (["bob".data] ++ "carol".data :: ["dave".data]) 5).failedCount = 1 ∧
      (∃ msg, (scanProfilesForXAccounts exScanEnvRejects
        (["bob".data] ++ "carol".data :: ["dave".data]) 5).errors =
          [("carol".data, msg)]) ∧
      (scanProfilesForXAccounts exScanEnvRejects
        (["bob".data] ++ "carol".data :: ["dave".data]) 5).linkedAccounts =
        (["bob".data] ++ "carol".data :: ["dave".data]).filterMap
          (fun v => settledValue (scanProfileForXAccount exScanEnvRejects v))) :=
  ⟨by omega, by unfold isScanRejected; rw [scanRejects_carol],
    C4_single_rejection_accounting exScanEnvRejects ["bob".data] ["dave".data]
      "carol".data 5 (by omega)
      (by intro v hv; simp at hv; subst hv;
          exact isScanRejected_false_of_fulfilled _ _ _ scanRejects_bob)
      (by intro v hv; simp at hv; subst hv;
          exact isScanRejected_false_of_fulfilled _ _ _ scanRejects_dave)
      (by unfold isScanRejected; rw [scanRejects_carol])⟩

end Leaderboard
